import Mathlib

/-!
# Verification of the mobileconfig-validator core

Shallow embedding of the schema-driven validation engine of the
`mobileconfig-validator` repository (`src/mobileconfig_validator/validator.py`,
`loader.py`, `types.py`) and proofs about the claims of its specification.

Modelling conventions:

* Parsed plist values (the output of `plistlib.load`) are modelled by the
  mutually inductive `PValue`/`PList`/`PDict`: strings, integers, booleans,
  reals (modelled exactly as rationals, since the code only compares them),
  byte blobs, dates (opaque timestamps), arrays and (insertion-ordered)
  dictionaries.
* Python truthiness, `==` and `isinstance` are modelled by `pyTruthy`, `pyEq`
  and the explicit shape tests below.  Python's `bool` is a subclass of `int`,
  so `isinstance(True, int)` holds; the embedding reproduces this.
* Fallible external collaborators are parameters: the manifest resolver is a
  pair of functions `getm`/`getv` (for `loader.get_manifest` and
  `loader.get_manifest_version`), and the regex engine behind `re.match` is a
  function `rm : String → String → Option Bool` where `none` models a pattern
  that fails to compile (`re.error`).
* A handful of inputs make the Python source raise an uncaught exception
  (e.g. a truthy non-string `PayloadUUID` reaches `uuid.UUID(value)` and dies
  with `AttributeError`; a non-numeric `pfm_range_min` next to a numeric value
  dies with `TypeError`).  On those inputs the embedding returns a harmless
  default, and every theorem quantifying over documents or manifests carries
  `docOk`/`manifestsOk` hypotheses that exclude them, so the theorems only
  speak about runs the source actually completes.
-/

mutual

inductive PValue : Type where
  | str (s : String)
  | int (n : Int)
  | bool (b : Bool)
  | real (q : Rat)
  | data (bytes : List Nat)
  | date (t : Nat)
  | arr (items : PList)
  | dict (entries : PDict)

inductive PList : Type where
  | nil
  | cons (head : PValue) (tail : PList)

inductive PDict : Type where
  | nil
  | cons (key : String) (val : PValue) (tail : PDict)

end

namespace PList

def length : PList → Nat
  | .nil => 0
  | .cons _ t => 1 + length t

def toList : PList → List PValue
  | .nil => []
  | .cons h t => h :: toList t

end PList

namespace PDict

/-- `d.get(key)`: first entry with the given key (Python dicts have unique
keys, so first-match lookup is faithful). -/
def get : PDict → String → Option PValue
  | .nil, _ => none
  | .cons k v t, key => if k = key then some v else get t key

/-- `key in d`. -/
def has (d : PDict) (key : String) : Bool := (d.get key).isSome

/-- `d.get(key, default)`. -/
def getD (d : PDict) (key : String) (dflt : PValue) : PValue := (d.get key).getD dflt

def toList : PDict → List (String × PValue)
  | .nil => []
  | .cons k v t => (k, v) :: toList t

def length : PDict → Nat
  | .nil => 0
  | .cons _ _ t => 1 + length t

end PDict

/-- Python truthiness of a plist value (`bool(v)`).  `datetime` objects are
always truthy. -/
def pyTruthy : PValue → Bool
  | .str s => s ≠ ""
  | .int n => n ≠ 0
  | .bool b => b
  | .real q => q ≠ 0
  | .data bs => bs ≠ []
  | .date _ => true
  | .arr .nil => false
  | .arr _ => true
  | .dict .nil => false
  | .dict _ => true

/-- Truthiness of `d.get(k)` (absent keys give `None`, which is falsy). -/
def optTruthy : Option PValue → Bool
  | some v => pyTruthy v
  | none => false

/-- Numeric view used by Python's cross-type `==` and `<` on numbers:
`bool` counts as `0`/`1`, integers and reals compare exactly. -/
def pyNum? : PValue → Option Rat
  | .int n => some (n : Rat)
  | .bool b => some (if b then 1 else 0)
  | .real q => some q
  | _ => none

mutual

/-- Python `==` on plist values: numbers compare by numeric value across
`int`/`bool`/`float`, everything else structurally; values of unrelated
shapes are unequal. -/
def pyEq : PValue → PValue → Bool
  | .str a, .str b => a = b
  | .data a, .data b => a = b
  | .date a, .date b => a = b
  | .arr a, .arr b => pyEqList a b
  | .dict a, .dict b => PDict.length a = PDict.length b && pyEqEntries a b
  | a, b =>
    match pyNum? a, pyNum? b with
    | some x, some y => x = y
    | _, _ => false

def pyEqList : PList → PList → Bool
  | .nil, .nil => true
  | .cons a ta, .cons b tb => pyEq a b && pyEqList ta tb
  | _, _ => false

/-- Dict equality given equal sizes (keys are unique in parsed plists): every
entry of the first dict is matched by the second. -/
def pyEqEntries : PDict → PDict → Bool
  | .nil, _ => true
  | .cons k v t, b =>
    (match b.get k with
     | some w => pyEq v w
     | none => false) && pyEqEntries t b

end

/-- Python `v == s` for a string literal `s` (a string equals no value of
another shape). -/
def pyEqStr (v : PValue) (s : String) : Bool :=
  match v with
  | .str a => a = s
  | _ => false

/-- `d.get(k) == s` (absent gives `None`, and `None == s` is `False`). -/
def eqStrOpt (o : Option PValue) (s : String) : Bool :=
  match o with
  | some v => pyEqStr v s
  | none => false

/-- Python `v == n` for an integer literal (`True == 1` holds). -/
def pyEqInt (v : PValue) (n : Int) : Bool :=
  match pyNum? v with
  | some x => x = (n : Rat)
  | none => false

/-- Python `v in l` for a plist array `l`. -/
def pyMemL (v : PValue) : PList → Bool
  | .nil => false
  | .cons h t => pyEq h v || pyMemL v t

/-- Membership of `v` in a set modelled as a list (the `all_uuids` set). -/
def pyMemSet (v : PValue) (l : List PValue) : Bool := l.any fun w => pyEq w v

example : pyEq (.int 1) (.bool true) = true := rfl
example : pyEq (.arr (.cons (.int 0) .nil)) (.arr (.cons (.bool false) .nil)) = true := rfl
example : pyEq (.str "a") (.int 1) = false := rfl
example : pyTruthy (.dict .nil) = false := rfl

/-! ## Issue and result types (`types.py`) -/

inductive Severity where
  | error
  | warning
  | info
deriving DecidableEq, Repr

/-- `ValidationIssue`.  `expected`/`actual` hold the underlying values passed
at the construction sites (the source interpolates some of them into display
strings; no claim depends on that rendering). -/
structure ValidationIssue where
  severity : Severity
  code : String
  message : String
  key_path : String
  expected : Option PValue := none
  actual : Option PValue := none

/-- `ValidationResult` (the `file_path` field is dropped: it is an I/O handle
that no validation logic reads). -/
structure ValidationResult where
  payload_types : List PValue
  issues : List ValidationIssue
  manifest_versions : List (PValue × PValue)

/-- `ValidationResult.is_valid`: no error-severity issue. -/
def ValidationResult.is_valid (r : ValidationResult) : Bool :=
  !(r.issues.any fun i => i.severity == Severity.error)

/-- Same test on a bare issue list. -/
def isValidIssues (issues : List ValidationIssue) : Bool :=
  !(issues.any fun i => i.severity == Severity.error)

/-! ## `SchemaValidator._type_matches` -/

/-- `type(value).__name__`, used for the `actual` field of type errors. -/
def pyTypeName : PValue → String
  | .str _ => "str"
  | .int _ => "int"
  | .bool _ => "bool"
  | .real _ => "float"
  | .data _ => "bytes"
  | .date _ => "datetime"
  | .arr _ => "list"
  | .dict _ => "dict"

/-- The keys of `SchemaValidator.TYPE_MAP`. -/
def knownTypeNames : List String :=
  ["string", "integer", "real", "boolean", "array", "dictionary", "data", "date"]

/-- `isinstance(value, TYPE_MAP[t])` for the non-special types.  Python's
`bool` is a subclass of `int`, so booleans satisfy `isinstance(v, int)`. -/
def isinstanceTM (v : PValue) (t : String) : Bool :=
  if t = "string" then (match v with | .str _ => true | _ => false)
  else if t = "integer" then (match v with | .int _ => true | .bool _ => true | _ => false)
  else if t = "array" then (match v with | .arr _ => true | _ => false)
  else if t = "dictionary" then (match v with | .dict _ => true | _ => false)
  else if t = "data" then (match v with | .data _ => true | _ => false)
  else false

/-- `SchemaValidator._type_matches(value, pfm_type)` for a string-valued
`pfm_type` (`validator.py:700`). -/
def type_matches (v : PValue) (t : String) : Bool :=
  if ¬ (t ∈ knownTypeNames) then true
  else if t = "date" then (match v with | .date _ => true | _ => false)
  else if t = "real" then (match v with | .int _ => true | .bool _ => true | .real _ => true | _ => false)
  else if t = "boolean" then
    (match v with
     | .bool _ => true
     | .int n => n = 0 || n = 1
     | _ => false)
  else isinstanceTM v t

/-- The type check applied to whatever `key_def.get("pfm_type")` returned.
A hashable non-string declared type is never a `TYPE_MAP` key, so it matches
every value; an unhashable one (array/dict) raises `TypeError` in the source
and is excluded by `keyDefOk`. -/
def typeMatchesV (v : PValue) (et : PValue) : Bool :=
  match et with
  | .str t => type_matches v t
  | _ => true

/-! ## `uuid.UUID` format validation (`_validate_uuid`) -/

/-- Remove every occurrence of `"urn:"` (Python `str.replace`, left-to-right,
non-overlapping). -/
def stripUrnTok : List Char → List Char
  | 'u' :: 'r' :: 'n' :: ':' :: rest => stripUrnTok rest
  | c :: rest => c :: stripUrnTok rest
  | [] => []

/-- Remove every occurrence of `"uuid:"`. -/
def stripUuidTok : List Char → List Char
  | 'u' :: 'u' :: 'i' :: 'd' :: ':' :: rest => stripUuidTok rest
  | c :: rest => c :: stripUuidTok rest
  | [] => []

def isBraceChar (c : Char) : Bool := c = '\x7b' || c = '\x7d'

def isHexChar (c : Char) : Bool :=
  c.isDigit || ('a' ≤ c && c ≤ 'f') || ('A' ≤ c && c ≤ 'F')

/-- `uuid.UUID(value)` succeeds: strip `urn:`/`uuid:`, strip braces from both
ends, drop hyphens, and require 32 hex digits.  (CPython's trailing
`int(hex, 16)` also tolerates fringe inputs — signs, `0x`, underscores,
whitespace — that cannot appear after the 32-hex-digit requirement on real
profiles; they are not modelled.) -/
def isValidUUID (s : String) : Bool :=
  let h := stripUuidTok (stripUrnTok s.data)
  let h := (h.dropWhile isBraceChar).reverse.dropWhile isBraceChar |>.reverse
  let h := h.filter fun c => c ≠ '-'
  h.length = 32 && h.all isHexChar

example : isValidUUID "f81d4fae-7dec-11d0-a765-00a0c91e6bf6" = true := rfl
example : isValidUUID "not-a-uuid" = false := rfl
example : isValidUUID "F81D4FAE7DEC11D0A76500A0C91E6BF6" = true := rfl

/-! ## Schema helpers (`_get_immediate_subkey_defs` and friends) -/

/-- First-match lookup in an association list (iteration over a Python dict's
items uses the list order). -/
def pLookup : List (String × PValue) → String → Option PValue
  | [], _ => none
  | (k, v) :: t, key => if k = key then some v else pLookup t key

/-- `result[name] = subkey`: replace in place on duplicate names (Python dict
assignment keeps the original insertion position), else append. -/
def upsertDef : List (String × PValue) → String → PValue → List (String × PValue)
  | [], k, v => [(k, v)]
  | (k', v') :: t, k, v => if k' = k then (k, v) :: t else (k', v') :: upsertDef t k v

/-- Field access `key_def.get(field)` on a schema node (schema nodes are plist
dicts; a non-dict node has no `.get` and would raise in the source). -/
def kdGet (kd : PValue) (fieldName : String) : Option PValue :=
  match kd with
  | .dict d => d.get fieldName
  | _ => none

/-- The loop body of `SchemaValidator._get_immediate_subkey_defs`
(`validator.py:427`), folding `result[name] = subkey` over the subkey list:
non-dict entries are skipped, as are entries whose `pfm_name` is absent or
falsy.  (A truthy non-string name is excluded by `keyDefOk`: it would make the
source crash later on `name.startswith`.) -/
def immediateSubkeyDefsFrom (acc : List (String × PValue)) : PList → List (String × PValue)
  | .nil => acc
  | .cons sk t =>
    match sk with
    | .dict d =>
      (match d.get "pfm_name" with
       | some (.str n) =>
         if n ≠ "" then immediateSubkeyDefsFrom (upsertDef acc n (.dict d)) t
         else immediateSubkeyDefsFrom acc t
       | _ => immediateSubkeyDefsFrom acc t)
    | _ => immediateSubkeyDefsFrom acc t

/-- `SchemaValidator._get_immediate_subkey_defs(subkeys)`. -/
def immediateSubkeyDefs (subkeys : PList) : List (String × PValue) :=
  immediateSubkeyDefsFrom [] subkeys

/-- `SchemaValidator._get_string_array_item_def` (`validator.py:675`): a lone
string-typed subkey definition constrains string items of the array. -/
def getStringArrayItemDef (item_subkeys : PList) : Option PValue :=
  match item_subkeys with
  | .cons sk .nil =>
    (match sk with
     | .dict _ => if eqStrOpt (kdGet sk "pfm_type") "string" then some sk else none
     | _ => none)
  | _ => none

/-- `any(isinstance(item, dict) and wrapper_name in item for item in actual_items)`:
the loop of `_unwrap_array_item_schema` over the actual array elements. -/
def hasWrapperKey (wrapper_name : String) : PList → Bool
  | .nil => false
  | .cons item t =>
    (match item with
     | .dict d => d.has wrapper_name
     | _ => false) || hasWrapperKey wrapper_name t

/-- `SchemaValidator._unwrap_array_item_schema` (`validator.py:449`): unwrap a
single dictionary-typed wrapper subkey when no actual array element carries the
wrapper's key and the wrapper has (truthy) nested subkeys. -/
def unwrapArrayItemSchema (item_defs : List (String × PValue)) (actual_items : PList) :
    List (String × PValue) :=
  match item_defs with
  | [(wrapper_name, wrapper_def)] =>
    if ¬ eqStrOpt (kdGet wrapper_def "pfm_type") "dictionary" then item_defs
    else if hasWrapperKey wrapper_name actual_items then item_defs
    else
      match kdGet wrapper_def "pfm_subkeys" with
      | some (.arr nested) =>
        if pyTruthy (.arr nested) then immediateSubkeyDefs nested else item_defs
      | some v =>
        -- a truthy non-array here would crash the source's iteration; a falsy
        -- one is skipped like the empty list
        if pyTruthy v then item_defs else item_defs
      | none => item_defs
  | _ => item_defs

/-! ## Per-key checks (`SchemaValidator._validate_key`, `validator.py:493`) -/

/-- Best-effort rendering of a numeric bound for the `>= min` / `<= max`
display strings (nothing in the development depends on this rendering). -/
def pvShow : PValue → String
  | .int n => toString n
  | .bool b => if b then "True" else "False"
  | .real q => toString q
  | .str s => s
  | _ => "..."

/-- Deprecation check: `if key_def.get("pfm_deprecated"):` emit W001. -/
def deprCheck (kp : String) (kd : PValue) : List ValidationIssue :=
  if optTruthy (kdGet kd "pfm_deprecated") then
    [{ severity := .warning, code := "W001", message := "Key is deprecated", key_path := kp }]
  else []

/-- `if expected_type and not self._type_matches(value, expected_type)`. -/
def typeCheckFails (v : PValue) (kd : PValue) : Bool :=
  match kdGet kd "pfm_type" with
  | some et => pyTruthy et && !(typeMatchesV v et)
  | none => false

/-- Enum check: `if range_list and value not in range_list`.  A truthy
non-sequence `pfm_range_list` would raise `TypeError` in the source and is
excluded by `keyDefOk`. -/
def enumCheck (kp : String) (v : PValue) (kd : PValue) : List ValidationIssue :=
  match kdGet kd "pfm_range_list" with
  | some (.arr l) =>
    if pyTruthy (.arr l) && !(pyMemL v l) then
      [{ severity := .error, code := "E004", message := "Value not in allowed list",
         key_path := kp, expected := some (.arr l), actual := some v }]
    else []
  | _ => []

/-- Numeric range check: runs only when `isinstance(value, (int, float))`
(which booleans satisfy); each bound fires independently.  A present
non-numeric bound would raise `TypeError` in the source and is excluded by
`keyDefOk`. -/
def rangeCheck (kp : String) (v : PValue) (kd : PValue) : List ValidationIssue :=
  match pyNum? v with
  | some x =>
    (match kdGet kd "pfm_range_min" with
     | some mv =>
       (match pyNum? mv with
        | some m =>
          if x < m then
            [{ severity := .error, code := "E005", message := "Value below minimum",
               key_path := kp, expected := some (.str (">= " ++ pvShow mv)), actual := some v }]
          else []
        | none => [])
     | none => []) ++
    (match kdGet kd "pfm_range_max" with
     | some mv =>
       (match pyNum? mv with
        | some m =>
          if m < x then
            [{ severity := .error, code := "E005", message := "Value above maximum",
               key_path := kp, expected := some (.str ("<= " ++ pvShow mv)), actual := some v }]
          else []
        | none => [])
     | none => [])
  | none => []

/-- Regex format check: `if pfm_format and isinstance(value, str)`; the regex
engine `rm` returns `none` for a pattern that fails to compile (`re.error`),
which the source swallows.  A truthy non-string pattern would raise and is
excluded by `keyDefOk`. -/
def formatCheck (rm : String → String → Option Bool) (kp : String) (v : PValue) (kd : PValue) :
    List ValidationIssue :=
  match kdGet kd "pfm_format", v with
  | some (.str pat), .str s =>
    if pat ≠ "" then
      match rm pat s with
      | some false =>
        [{ severity := .error, code := "E006", message := "Value doesn't match required format",
           key_path := kp, expected := some (.str pat), actual := some v }]
      | _ => []
    else []
  | _, _ => []

/-- `key_def.get("pfm_require") == "always"`. -/
def requireAlways (kd : PValue) : Bool := eqStrOpt (kdGet kd "pfm_require") "always"

/-- Required-key sweep over a set of immediate definitions against a dict:
used both for nested dictionaries (`validator.py:594`) and array items
(`validator.py:636`); the key path is `base.name`. -/
def requiredKeyIssues (base : String) (entries : PDict) (defs : List (String × PValue)) :
    List ValidationIssue :=
  defs.filterMap fun nd =>
    if requireAlways nd.2 && !(entries.has nd.1) then
      some { severity := .error, code := "E002", message := "Missing required key",
             key_path := base ++ "." ++ nd.1 }
    else none

/-- The E004 issue for a string array item outside the allowed list
(`validator.py:658`). -/
def stringItemEnumIssues (kpIdx : String) (s : String) (sdef : Option PValue) :
    List ValidationIssue :=
  match sdef with
  | some sd =>
    (match kdGet sd "pfm_range_list" with
     | some (.arr rl) =>
       if pyTruthy (.arr rl) && !(pyMemL (.str s) rl) then
         [{ severity := .error, code := "E004", message := "Value not in allowed list",
            key_path := kpIdx,
            expected := some (.str ("One of " ++ toString (PList.length rl) ++ " allowed values")),
            actual := some (.str s) }]
       else []
     | _ => [])
  | none => []

mutual

/-- `SchemaValidator._validate_key(key_path, value, key_def)`
(`validator.py:493`): deprecation warning, then the type check (an error there
returns immediately), then enum, range and format checks, then recursion into
nested dictionaries and array items.  The source guards the two recursive
branches by `expected_type == "dictionary" and isinstance(value, dict)` and
`expected_type == "array" and isinstance(value, list)`; since a value has one
shape, at most one branch fires, and they are written here as one match on the
value (the wrappers `nestedDictIssues`/`arrayItemIssues` below restate them
separately). -/
def validate_key (rm : String → String → Option Bool) (kp : String) (v : PValue)
    (kd : PValue) : List ValidationIssue :=
  if typeCheckFails v kd then
    deprCheck kp kd ++
    [{ severity := .error, code := "E003", message := "Type mismatch", key_path := kp,
       expected := kdGet kd "pfm_type", actual := some (.str (pyTypeName v)) }]
  else
    deprCheck kp kd ++ enumCheck kp v kd ++ rangeCheck kp v kd ++ formatCheck rm kp v kd ++
    (match v with
     | .dict entries =>
       if eqStrOpt (kdGet kd "pfm_type") "dictionary" then
         match kdGet kd "pfm_subkeys" with
         | some (.arr sks) =>
           if pyTruthy (.arr sks) then
             requiredKeyIssues kp entries (immediateSubkeyDefs sks) ++
             validateDictEntries rm kp entries (immediateSubkeyDefs sks)
           else []
         | _ => []
       else []
     | .arr items =>
       if eqStrOpt (kdGet kd "pfm_type") "array" then
         match kdGet kd "pfm_subkeys" with
         | some (.arr sks) =>
           if pyTruthy (.arr sks) then
             validateArrayItems rm kp 0 items
               (unwrapArrayItemSchema (immediateSubkeyDefs sks) items)
               (getStringArrayItemDef sks)
           else []
         | _ => []
       else []
     | _ => [])

/-- `for nested_key, nested_value in value.items(): if nested_key in
nested_defs: ...` (`validator.py:607`): recurse into every present child with
a known definition; unknown children are ignored at nested levels. -/
def validateDictEntries (rm : String → String → Option Bool) (kp : String) :
    PDict → List (String × PValue) → List ValidationIssue
  | .nil, _ => []
  | .cons k v t, defs =>
    (match pLookup defs k with
     | some nkd => validate_key rm (kp ++ "." ++ k) v nkd
     | none => []) ++ validateDictEntries rm kp t defs

/-- The per-element loop of the array branch (`validator.py:633`): dictionary
elements get required-key checks and per-key recursion at `kp[idx].child`;
string elements are checked against the lone string subkey's enum; other
shapes are ignored. -/
def validateArrayItems (rm : String → String → Option Bool) (kp : String) (idx : Nat) :
    PList → List (String × PValue) → Option PValue → List ValidationIssue
  | .nil, _, _ => []
  | .cons item t, idefs, sdef =>
    (match item with
     | .dict d =>
       requiredKeyIssues (kp ++ "[" ++ toString idx ++ "]") d idefs ++
       validateDictEntries rm (kp ++ "[" ++ toString idx ++ "]") d idefs
     | .str s => stringItemEnumIssues (kp ++ "[" ++ toString idx ++ "]") s sdef
     | _ => []) ++ validateArrayItems rm kp (idx + 1) t idefs sdef

end

/-- The nested-dictionary branch of `_validate_key` (`validator.py:587`), as a
standalone function: only when the declared type is `"dictionary"`, the value
is a dict and the nested subkey list is truthy. -/
def nestedDictIssues (rm : String → String → Option Bool) (kp : String) (v : PValue)
    (kd : PValue) : List ValidationIssue :=
  match v with
  | .dict entries =>
    if eqStrOpt (kdGet kd "pfm_type") "dictionary" then
      match kdGet kd "pfm_subkeys" with
      | some (.arr sks) =>
        if pyTruthy (.arr sks) then
          requiredKeyIssues kp entries (immediateSubkeyDefs sks) ++
          validateDictEntries rm kp entries (immediateSubkeyDefs sks)
        else []
      | _ => []
    else []
  | _ => []

/-- The array-item branch of `_validate_key` (`validator.py:617`), as a
standalone function: only when the declared type is `"array"`, the value is a
sequence and the item subkey list is truthy; applies the wrapper unwrap, then
validates each element. -/
def arrayItemIssues (rm : String → String → Option Bool) (kp : String) (v : PValue)
    (kd : PValue) : List ValidationIssue :=
  match v with
  | .arr items =>
    if eqStrOpt (kdGet kd "pfm_type") "array" then
      match kdGet kd "pfm_subkeys" with
      | some (.arr sks) =>
        if pyTruthy (.arr sks) then
          validateArrayItems rm kp 0 items
            (unwrapArrayItemSchema (immediateSubkeyDefs sks) items)
            (getStringArrayItemDef sks)
        else []
      | _ => []
    else []
  | _ => []

/-- `validate_key` unfolded into its sequential check components. -/
theorem validate_key_eq (rm : String → String → Option Bool) (kp : String) (v : PValue)
    (kd : PValue) :
    validate_key rm kp v kd =
      if typeCheckFails v kd then
        deprCheck kp kd ++
        [{ severity := .error, code := "E003", message := "Type mismatch", key_path := kp,
           expected := kdGet kd "pfm_type", actual := some (.str (pyTypeName v)) }]
      else
        deprCheck kp kd ++ enumCheck kp v kd ++ rangeCheck kp v kd ++ formatCheck rm kp v kd ++
        nestedDictIssues rm kp v kd ++ arrayItemIssues rm kp v kd := by
  cases v <;> simp [validate_key, nestedDictIssues, arrayItemIssues]

/-! ## Document-level orchestration (`SchemaValidator.validate` and helpers) -/

/-- `SchemaValidator.STANDARD_PAYLOAD_KEYS`. -/
def standardPayloadKeys : List String :=
  ["PayloadType", "PayloadVersion", "PayloadIdentifier", "PayloadUUID",
   "PayloadDisplayName", "PayloadDescription", "PayloadOrganization",
   "PayloadContent", "PayloadEnabled", "PayloadScope", "PayloadRemovalDisallowed"]

/-- `SchemaValidator._validate_uuid` (`validator.py:335`): `uuid.UUID(value)`
with `ValueError` mapped to E007.  A non-string value makes the source raise
an uncaught `AttributeError`; such documents are excluded by `docOk`. -/
def validate_uuid (v : PValue) (kp : String) : List ValidationIssue :=
  match v with
  | .str s =>
    if isValidUUID s then []
    else [{ severity := .error, code := "E007", message := "Invalid UUID format",
            key_path := kp, actual := some (.str s) }]
  | _ => []

/-- The required outer/payload keys (`validator.py:238` and `:302`). -/
def requiredEnvelopeKeys : List String :=
  ["PayloadType", "PayloadVersion", "PayloadIdentifier", "PayloadUUID"]

/-- `SchemaValidator._validate_profile_structure` (`validator.py:233`). -/
def validate_profile_structure (p : PDict) : List ValidationIssue :=
  (requiredEnvelopeKeys.filterMap fun k =>
    if p.has k then none
    else some { severity := .error, code := "E002", message := "Missing required key: " ++ k,
                key_path := k }) ++
  (if eqStrOpt (p.get "PayloadType") "Configuration" then []
   else [{ severity := .error, code := "E004",
           message := "Outer PayloadType must be 'Configuration'", key_path := "PayloadType",
           expected := some (.str "Configuration"), actual := p.get "PayloadType" }]) ++
  (match p.get "PayloadVersion" with
   | some v =>
     if ¬ pyEqInt v 1 then
       [{ severity := .error, code := "E008", message := "PayloadVersion should be 1",
          key_path := "PayloadVersion", expected := some (.int 1), actual := some v }]
     else []
   | none => []) ++
  (match p.get "PayloadUUID" with
   | some v => if pyTruthy v then validate_uuid v "PayloadUUID" else []
   | none => []) ++
  (if p.has "PayloadOrganization" then []
   else [{ severity := .info, code := "I002", message := "Consider adding PayloadOrganization",
           key_path := "PayloadOrganization" }])

/-- `SchemaValidator._validate_payload_structure` (`validator.py:295`). -/
def validate_payload_structure (p : PDict) (pfx : String) : List ValidationIssue :=
  (requiredEnvelopeKeys.filterMap fun k =>
    if p.has k then none
    else some { severity := .error, code := "E002", message := "Missing required key: " ++ k,
                key_path := pfx ++ "." ++ k }) ++
  (match p.get "PayloadVersion" with
   | some v =>
     if ¬ pyEqInt v 1 then
       [{ severity := .error, code := "E008", message := "PayloadVersion should be 1",
          key_path := pfx ++ ".PayloadVersion", expected := some (.int 1), actual := some v }]
     else []
   | none => []) ++
  (match p.get "PayloadUUID" with
   | some v => if pyTruthy v then validate_uuid v (pfx ++ ".PayloadUUID") else []
   | none => [])

/-- The `pfm_subkeys` list of a manifest (`manifest.get("pfm_subkeys", [])`).
A present non-array value would crash the source's iteration and is excluded
by `manifestOk`. -/
def manifestSubkeys (m : PValue) : PList :=
  match kdGet m "pfm_subkeys" with
  | some (.arr l) => l
  | _ => .nil

/-- `"macOS" not in platforms` over the `pfm_platforms` list. -/
def platformsHaveMacOS : PList → Bool
  | .nil => false
  | .cons v t => pyEqStr v "macOS" || platformsHaveMacOS t

/-- The platform-compatibility warning of
`_validate_payload_against_manifest` (`validator.py:358`). -/
def platformIssues (m : PValue) (pfx : String) : List ValidationIssue :=
  match kdGet m "pfm_platforms" with
  | some (.arr l) =>
    if pyTruthy (.arr l) && !(platformsHaveMacOS l) then
      [{ severity := .warning, code := "W003",
         message := "Manifest indicates this payload is not for macOS", key_path := pfx,
         expected := some (.str "macOS"), actual := some (.arr l) }]
    else []
  | _ => []

/-- The required-key sweep at the top payload level (`validator.py:383`):
standard envelope keys and `PFC_`-prefixed ProfileCreator artefacts are
skipped. -/
def manifestRequiredIssues (payload : PDict) (defs : List (String × PValue)) (pfx : String) :
    List ValidationIssue :=
  defs.filterMap fun nd =>
    if requireAlways nd.2 && !(payload.has nd.1) then
      if nd.1 ∈ standardPayloadKeys then none
      else if "PFC_".isPrefixOf nd.1 then none
      else some { severity := .error, code := "E002", message := "Missing required key",
                  key_path := pfx ++ "." ++ nd.1 }
    else none

/-- The per-key loop at the top payload level (`validator.py:403`): standard
envelope keys are skipped, known keys go through `_validate_key`, unknown keys
get the W002 warning. -/
def payloadKeyIssues (rm : String → String → Option Bool) (payload : PDict)
    (defs : List (String × PValue)) (pfx : String) : List ValidationIssue :=
  match payload with
  | .nil => []
  | .cons k v t =>
    (if k ∈ standardPayloadKeys then []
     else
       match pLookup defs k with
       | some kd => validate_key rm (pfx ++ "." ++ k) v kd
       | none =>
         [{ severity := .warning, code := "W002", message := "Unknown key not in manifest schema",
            key_path := pfx ++ "." ++ k, actual := some (.str k) }]) ++
    payloadKeyIssues rm t defs pfx

/-- `SchemaValidator._validate_payload_against_manifest` (`validator.py:352`).
(The `pfm_macos_min` branch of the source is a `pass`.) -/
def validate_payload_against_manifest (rm : String → String → Option Bool)
    (payload : PDict) (m : PValue) (pfx : String) : List ValidationIssue :=
  platformIssues m pfx ++
  manifestRequiredIssues payload (immediateSubkeyDefs (manifestSubkeys m)) pfx ++
  payloadKeyIssues rm payload (immediateSubkeyDefs (manifestSubkeys m)) pfx

/-- The mutable state threaded through the payload loop of
`SchemaValidator.validate` (`validator.py:126`): the `all_uuids` set, the
`all_identifiers` list, `result.payload_types` and `result.manifest_versions`. -/
structure LoopState where
  uuids : List PValue
  idents : List PValue
  ptypes : List PValue
  versions : List (PValue × PValue)

/-- `all_uuids.add(u)` (set semantics: adding a member is a no-op). -/
def addUuid (uuids : List PValue) (u : PValue) : List PValue :=
  if pyMemSet u uuids then uuids else uuids ++ [u]

/-- `result.manifest_versions[payload_type] = version` (dict assignment keeps
the original key and position on overwrite). -/
def setVersion : List (PValue × PValue) → PValue → PValue → List (PValue × PValue)
  | [], k, v => [(k, v)]
  | (k', v') :: t, k, v => if pyEq k' k then (k', v) :: t else (k', v') :: setVersion t k v

/-- The state before the loop (`validator.py:127`): the outer `PayloadUUID`
seeds the set when truthy, and `profile.get("PayloadIdentifier", "")` is
always appended. -/
def loopStateInit (profile : PDict) : LoopState :=
  { uuids :=
      match profile.get "PayloadUUID" with
      | some u => if pyTruthy u then [u] else []
      | none => []
    idents := [profile.getD "PayloadIdentifier" (.str "")]
    ptypes := []
    versions := [] }

/-- The E001 warning for an unresolvable payload type (`validator.py:203`). -/
def e001Issue (pfx : String) (ptype : PValue) : ValidationIssue :=
  { severity := .warning, code := "E001", message := "Unknown PayloadType - no manifest found",
    key_path := pfx ++ ".PayloadType", actual := some ptype }

/-- The duplicate-UUID check of one loop iteration (`validator.py:169`): a
truthy `PayloadUUID` is compared against the seen-set (collision => E009) and
then added to it. -/
def elemUuidStep (pl : PDict) (pfx : String) (uuids : List PValue) :
    List ValidationIssue × List PValue :=
  match pl.get "PayloadUUID" with
  | some u =>
    if pyTruthy u then
      ((if pyMemSet u uuids then
          [{ severity := .error, code := "E009", message := "Duplicate PayloadUUID",
             key_path := pfx ++ ".PayloadUUID", actual := some u }]
        else []), addUuid uuids u)
    else ([], uuids)
  | none => ([], uuids)

/-- The schema-resolution part of one loop iteration (`validator.py:190`):
a truthily resolved manifest is validated against (recording the version when
the separate exact-lookup version is truthy); otherwise the element gets the
E001 warning. -/
def elemSchemaStep (getm getv : PValue → Option PValue) (rm : String → String → Option Bool)
    (pl : PDict) (pfx : String) (versions : List (PValue × PValue)) :
    List ValidationIssue × List (PValue × PValue) :=
  let ptype := pl.getD "PayloadType" (.str "")
  match getm ptype with
  | some m =>
    if pyTruthy m then
      (validate_payload_against_manifest rm pl m pfx,
       match getv ptype with
       | some vv => if pyTruthy vv then setVersion versions ptype vv else versions
       | none => versions)
    else ([e001Issue pfx ptype], versions)
  | none => ([e001Issue pfx ptype], versions)

/-- One iteration of the payload loop (`validator.py:151`–`211`): a non-dict
element yields a single E003 and leaves the state unchanged; a dict element is
checked for UUID collision (then its UUID joins the set), gets its structural
checks, and is validated against its manifest when one resolves truthily,
otherwise yields the E001 warning. -/
def payloadStep (getm getv : PValue → Option PValue) (rm : String → String → Option Bool)
    (idx : Nat) (payload : PValue) (st : LoopState) : LoopState × List ValidationIssue :=
  match payload with
  | .dict pl =>
    let pfx := "PayloadContent[" ++ toString idx ++ "]"
    let uuidStep := elemUuidStep pl pfx st.uuids
    let schemaStep := elemSchemaStep getm getv rm pl pfx st.versions
    ({ uuids := uuidStep.2,
       idents := st.idents ++ [pl.getD "PayloadIdentifier" (.str "")],
       ptypes := st.ptypes ++ [pl.getD "PayloadType" (.str "")],
       versions := schemaStep.2 },
     uuidStep.1 ++ validate_payload_structure pl pfx ++ schemaStep.1)
  | _ =>
    (st, [{ severity := .error, code := "E003", message := "Payload must be a dictionary",
            key_path := "PayloadContent[" ++ toString idx ++ "]",
            expected := some (.str "dictionary"), actual := some (.str (pyTypeName payload)) }])

/-- The whole payload loop, accumulating issues in iteration order. -/
def runPayloads (getm getv : PValue → Option PValue) (rm : String → String → Option Bool)
    (idx : Nat) : PList → LoopState → LoopState × List ValidationIssue
  | .nil, st => (st, [])
  | .cons p t, st =>
    let step := payloadStep getm getv rm idx p st
    let rest := runPayloads getm getv rm (idx + 1) t step.1
    (rest.1, step.2 ++ rest.2)

/-- `identifier_counts` (`validator.py:214`): occurrence counts of truthy
identifiers, in first-appearance order (the dict keeps the original key). -/
def bumpCount : List (PValue × Nat) → PValue → List (PValue × Nat)
  | [], v => [(v, 1)]
  | (k, n) :: t, v => if pyEq k v then (k, n + 1) :: t else (k, n) :: bumpCount t v

def identifierCounts (idents : List PValue) : List (PValue × Nat) :=
  idents.foldl (fun acc idv => if pyTruthy idv then bumpCount acc idv else acc) []

/-- The trailing I003 sweep (`validator.py:219`): one info issue per
identifier value occurring more than once. -/
def dupIdIssues (idents : List PValue) : List ValidationIssue :=
  (identifierCounts idents).filterMap fun kn =>
    if kn.2 > 1 then
      some { severity := .info, code := "I003",
             message := "PayloadIdentifier appears " ++ toString kn.2 ++ " times",
             key_path := "PayloadIdentifier", actual := some kn.1 }
    else none

/-- `SchemaValidator.validate` (`validator.py:86`), modelled from the point
where `plistlib.load` has produced the document dict (the two E000 branches
for unreadable input precede everything and return immediately; claims about
parsed documents never reach them).  `getm`/`getv` stand for
`loader.get_manifest`/`loader.get_manifest_version`. -/
def validate (getm getv : PValue → Option PValue) (rm : String → String → Option Bool)
    (profile : PDict) : ValidationResult :=
  let structIssues := validate_profile_structure profile
  match profile.getD "PayloadContent" (.arr .nil) with
  | .arr pcs =>
    let looped := runPayloads getm getv rm 0 pcs (loopStateInit profile)
    { payload_types := looped.1.ptypes,
      issues := structIssues ++ looped.2 ++ dupIdIssues looped.1.idents,
      manifest_versions := looped.1.versions }
  | other =>
    { payload_types := [],
      issues := structIssues ++
        [{ severity := .error, code := "E003", message := "PayloadContent must be an array",
           key_path := "PayloadContent", expected := some (.str "array"),
           actual := some (.str (pyTypeName other)) }],
      manifest_versions := [] }

/-! ## The manifest loader (`loader.py`), for the version-recording claim -/

/-- One entry of `ManifestLoader._index`: built by `load_index` as
`{"path": info.get("path",""), "version": info.get("version"), ...}` (the
`modified`/`category` fields are never read by validation). -/
structure IndexInfo where
  path : String
  version : Option PValue

/-- ASCII lowering, matching `str.lower` on the ASCII identifiers that occur
in the index. -/
def lowerChar (c : Char) : Char :=
  if 'A' ≤ c && c ≤ 'Z' then Char.ofNat (c.toNat + 32) else c

def lowerStr (s : String) : String := ⟨s.data.map lowerChar⟩

/-- Exact lookup in the index (`self._index.get(payload_type)` /
`variant in self._index`). -/
def lookupIdx : List (String × IndexInfo) → String → Option IndexInfo
  | [], _ => none
  | (d, i) :: t, k => if d = k then some i else lookupIdx t k

/-- `for domain in self._index: if domain.lower() == payload_type.lower()`. -/
def lookupIdxCI : List (String × IndexInfo) → String → Option IndexInfo
  | [], _ => none
  | (d, i) :: t, k => if lowerStr d = lowerStr k then some i else lookupIdxCI t k

/-- The fixed suffix list of `loader.py:131`. -/
def platformSuffixes : List String :=
  ["-macOS", "-iOS", "-tvOS", ".macOS", ".iOS", ".tvOS"]

def lookupIdxSuffix (index : List (String × IndexInfo)) (pt : String) :
    List String → Option IndexInfo
  | [] => none
  | suf :: rest =>
    match lookupIdx index (pt ++ suf) with
    | some i => some i
    | none => lookupIdxSuffix index pt rest

/-- The info-resolution part of `ManifestLoader.get_manifest`
(`loader.py:121`–`135`): exact, then case-insensitive, then suffix variants. -/
def resolveInfo (index : List (String × IndexInfo)) (pt : String) : Option IndexInfo :=
  match lookupIdx index pt with
  | some i => some i
  | none =>
    match lookupIdxCI index pt with
    | some i => some i
    | none => lookupIdxSuffix index pt platformSuffixes

/-- `ManifestLoader.get_manifest` (`loader.py:104`): resolve the index entry,
then load the manifest file at its path.  `files` maps a path to its parsed
manifest; a missing or malformed file is simply absent (both give `None`).
The `_manifests` memo cache only re-serves earlier results and has no
observable effect in this stateless model. -/
def loader_get_manifest (index : List (String × IndexInfo)) (files : List (String × PValue))
    (pt : String) : Option PValue :=
  match resolveInfo index pt with
  | some info =>
    (match files.find? fun f => f.1 = info.path with
     | some f => some f.2
     | none => none)
  | none => none

/-- `ManifestLoader.get_manifest_version` (`loader.py:155`): an **exact**
index lookup only — none of `get_manifest`'s fallbacks. -/
def loader_get_manifest_version (index : List (String × IndexInfo)) (pt : String) :
    Option PValue :=
  match lookupIdx index pt with
  | some info => info.version
  | none => none

/-- `validate` calls the loader with `payload.get("PayloadType", "")`, which
is a string on every document the source completes (an unhashable type would
raise in the index lookup). -/
def loaderGetm (index : List (String × IndexInfo)) (files : List (String × PValue)) :
    PValue → Option PValue := fun v =>
  match v with
  | .str s => loader_get_manifest index files s
  | _ => none

def loaderGetv (index : List (String × IndexInfo)) : PValue → Option PValue := fun v =>
  match v with
  | .str s => loader_get_manifest_version index s
  | _ => none

/-! ## Well-formedness predicates

These carve out exactly the documents and manifests on which the Python
source runs to completion (see the header comment); they appear as hypotheses
of the document-level theorems. -/

/-- Non-recursive field conditions on one schema key definition: a truthy
`pfm_name`/`pfm_format` must be a string, `pfm_type` must be hashable,
a truthy `pfm_range_list` must be a sequence, and present range bounds must be
numeric. -/
def keyDefFieldsOk (kd : PValue) : Bool :=
  (match kdGet kd "pfm_name" with
   | some v => !(pyTruthy v) || (match v with | .str _ => true | _ => false)
   | none => true) &&
  (match kdGet kd "pfm_type" with
   | some v => (match v with | .arr _ => false | .dict _ => false | _ => true)
   | none => true) &&
  (match kdGet kd "pfm_range_list" with
   | some v => !(pyTruthy v) || (match v with | .arr _ => true | _ => false)
   | none => true) &&
  (match kdGet kd "pfm_range_min" with
   | some v => (pyNum? v).isSome
   | none => true) &&
  (match kdGet kd "pfm_range_max" with
   | some v => (pyNum? v).isSome
   | none => true) &&
  (match kdGet kd "pfm_format" with
   | some v => !(pyTruthy v) || (match v with | .str _ => true | _ => false)
   | none => true)

mutual

/-- Recursive well-formedness of a schema key definition (non-dict entries are
harmlessly skipped by the source, so anything else is fine). -/
def keyDefOk : PValue → Bool
  | .dict d => keyDefFieldsOk (.dict d) && keyDefEntriesOk d
  | _ => true

/-- A truthy `pfm_subkeys` value anywhere in the definition must be a sequence
of well-formed definitions. -/
def keyDefEntriesOk : PDict → Bool
  | .nil => true
  | .cons k v t =>
    (if k = "pfm_subkeys" then
       if pyTruthy v then (match v with | .arr l => subkeysListOk l | _ => false) else true
     else true) && keyDefEntriesOk t

def subkeysListOk : PList → Bool
  | .nil => true
  | .cons sk t => keyDefOk sk && subkeysListOk t

end

def manifestEntriesOk : PDict → Bool
  | .nil => true
  | .cons k v t =>
    (if k = "pfm_subkeys" then (match v with | .arr l => subkeysListOk l | _ => false)
     else true) && manifestEntriesOk t

/-- Well-formedness of a whole manifest: it is a dict, a truthy
`pfm_platforms` is a sequence, and a present `pfm_subkeys` is a sequence of
well-formed key definitions. -/
def manifestOk (m : PValue) : Bool :=
  match m with
  | .dict d =>
    (match d.get "pfm_platforms" with
     | some v => !(pyTruthy v) || (match v with | .arr _ => true | _ => false)
     | none => true) &&
    manifestEntriesOk d
  | _ => false

/-- Every manifest the resolver can return is well-formed. -/
def manifestsOk (getm : PValue → Option PValue) : Prop :=
  ∀ v m, getm v = some m → manifestOk m = true

/-- Envelope sanity of one payload dict (or the document root): a truthy
`PayloadUUID` or `PayloadIdentifier` must be a string — a non-string UUID
reaches `uuid.UUID(value)` and an unhashable identifier reaches the
`identifier_counts` dict, both uncaught in the source. -/
def envOk (pl : PDict) : Bool :=
  (match pl.get "PayloadUUID" with
   | some v => !(pyTruthy v) || (match v with | .str _ => true | _ => false)
   | none => true) &&
  (match pl.get "PayloadIdentifier" with
   | some v => !(pyTruthy v) || (match v with | .str _ => true | _ => false)
   | none => true)

def payloadsEnvOk : PList → Bool
  | .nil => true
  | .cons p t =>
    (match p with
     | .dict d => envOk d
     | _ => true) && payloadsEnvOk t

/-- Envelope sanity of the whole document. -/
def docOk (p : PDict) : Bool :=
  envOk p &&
  (match p.getD "PayloadContent" (.arr .nil) with
   | .arr l => payloadsEnvOk l
   | _ => true)

/-! ## Claim C1: validity is exactly the absence of error-severity issues -/

/-- C1: for every document, the validation result's `is_valid` is true iff no
issue in the result's issue list has error severity; and appending an issue
changes validity only when that issue has error severity (so warnings and info
never change it). -/
theorem c1_is_valid_iff_no_error (getm getv : PValue → Option PValue)
    (rm : String → String → Option Bool) (profile : PDict) :
    ((validate getm getv rm profile).is_valid = true ↔
      ∀ i ∈ (validate getm getv rm profile).issues, i.severity ≠ Severity.error) ∧
    (∀ (issues : List ValidationIssue) (w : ValidationIssue),
      isValidIssues (issues ++ [w]) =
        (isValidIssues issues && !(w.severity == Severity.error))) := by
  constructor
  · simp [ValidationResult.is_valid]
  · intro issues w
    simp [isValidIssues, Bool.not_or, Bool.and_comm]

/-- Closed instance of `c1_is_valid_iff_no_error` at a concrete document. -/
theorem c1_is_valid_iff_no_error_witness :
    ((validate (fun _ => none) (fun _ => none) (fun _ _ => none) .nil).is_valid = true ↔
      ∀ i ∈ (validate (fun _ => none) (fun _ => none) (fun _ _ => none) .nil).issues,
        i.severity ≠ Severity.error) :=
  (c1_is_valid_iff_no_error (fun _ => none) (fun _ => none) (fun _ _ => none) .nil).1

/-! ## Claim C2: the shape of the per-key type check -/

/-- C2 (counterexample to the claim as stated): the claim says declared type
"integer" requires an exact structural match of the value's shape, but the
check is `isinstance(value, int)` and Python booleans are integers, so the
boolean `true` passes the type check for declared type "integer". -/
theorem c2_counterexample : type_matches (.bool true) "integer" = true := rfl

/-- C2 (amended): the per-key type check behaves exactly as claimed — "real"
accepts integers and floats, "boolean" accepts booleans and the integers 0/1
only, "date" requires a timestamp, and the remaining five types use
`isinstance` — except that, booleans being Python integers, "integer" (and
"real") also accept boolean values. -/
theorem c2_type_matches_characterization (v : PValue) :
    (type_matches v "real" = true ↔
      (∃ n, v = .int n) ∨ (∃ b, v = .bool b) ∨ (∃ q, v = .real q)) ∧
    (type_matches v "boolean" = true ↔ (∃ b, v = .bool b) ∨ v = .int 0 ∨ v = .int 1) ∧
    (type_matches v "date" = true ↔ ∃ t, v = .date t) ∧
    (type_matches v "string" = true ↔ ∃ s, v = .str s) ∧
    (type_matches v "integer" = true ↔ (∃ n, v = .int n) ∨ (∃ b, v = .bool b)) ∧
    (type_matches v "array" = true ↔ ∃ l, v = .arr l) ∧
    (type_matches v "dictionary" = true ↔ ∃ d, v = .dict d) ∧
    (type_matches v "data" = true ↔ ∃ bs, v = .data bs) := by
  cases v <;> simp [type_matches, isinstanceTM, knownTypeNames]

/-! ## Claim C3: a type mismatch short-circuits the remaining per-key checks -/

/-- C3: when a key's declared type is truthy and the value fails the type
check, `_validate_key` returns exactly the deprecation warning (when the key
is flagged deprecated) followed by one error-severity E003 type-mismatch
issue at the key's path — no enum, range, format, nested-dictionary or
array-item check contributes anything. -/
theorem c3_type_mismatch_short_circuits (rm : String → String → Option Bool)
    (kp : String) (v : PValue) (kd : PValue) (et : PValue)
    (htype : kdGet kd "pfm_type" = some et) (htruthy : pyTruthy et = true)
    (hfail : typeMatchesV v et = false) :
    validate_key rm kp v kd =
      deprCheck kp kd ++
      [{ severity := .error, code := "E003", message := "Type mismatch", key_path := kp,
         expected := some et, actual := some (.str (pyTypeName v)) }] := by
  have hf : typeCheckFails v kd = true := by
    simp [typeCheckFails, htype, htruthy, hfail]
  rw [validate_key_eq, if_pos hf, htype]

/-- Closed instance of `c3_type_mismatch_short_circuits`: declared type
"boolean", value the integer 2. -/
theorem c3_type_mismatch_short_circuits_witness :
    validate_key (fun _ _ => some true) "PayloadContent[0].Enabled" (.int 2)
      (.dict (.cons "pfm_type" (.str "boolean")
        (.cons "pfm_range_list" (.arr (.cons (.int 2) .nil)) .nil))) =
      [{ severity := .error, code := "E003", message := "Type mismatch",
         key_path := "PayloadContent[0].Enabled",
         expected := some (.str "boolean"), actual := some (.str "int") }] := by
  rw [c3_type_mismatch_short_circuits (fun _ _ => some true) "PayloadContent[0].Enabled"
    (.int 2)
    (.dict (.cons "pfm_type" (.str "boolean")
      (.cons "pfm_range_list" (.arr (.cons (.int 2) .nil)) .nil)))
    (.str "boolean") rfl rfl rfl]
  rfl

/-! ## Shape lemmas for the per-key check components -/

theorem deprCheck_shape (kp : String) (kd : PValue) :
    ∀ i ∈ deprCheck kp kd, i.code = "W001" ∧ i.severity = .warning ∧ i.key_path = kp := by
  unfold deprCheck
  split <;> simp

theorem enumCheck_shape (kp : String) (v : PValue) (kd : PValue) :
    ∀ i ∈ enumCheck kp v kd, i.code = "E004" ∧ i.severity = .error ∧ i.key_path = kp := by
  unfold enumCheck
  split
  · split <;> simp
  · simp

theorem rangeCheck_shape (kp : String) (v : PValue) (kd : PValue) :
    ∀ i ∈ rangeCheck kp v kd, i.code = "E005" ∧ i.severity = .error ∧ i.key_path = kp := by
  intro i hi
  unfold rangeCheck at hi
  repeat' split at hi
  all_goals simp at hi
  all_goals obtain rfl | rfl := hi <;> exact ⟨rfl, rfl, rfl⟩

theorem formatCheck_shape (rm : String → String → Option Bool) (kp : String) (v : PValue)
    (kd : PValue) :
    ∀ i ∈ formatCheck rm kp v kd, i.code = "E006" ∧ i.severity = .error ∧ i.key_path = kp := by
  unfold formatCheck
  split
  · split
    · split <;> simp
    · simp
  · simp

theorem requiredKeyIssues_shape (base : String) (entries : PDict)
    (defs : List (String × PValue)) :
    ∀ i ∈ requiredKeyIssues base entries defs,
      i.code = "E002" ∧ i.severity = .error ∧ ∃ s, i.key_path = base ++ s := by
  intro i hi
  unfold requiredKeyIssues at hi
  rw [List.mem_filterMap] at hi
  obtain ⟨nd, _, hnd⟩ := hi
  revert hnd
  split
  · intro h
    obtain rfl := Option.some.inj h
    exact ⟨rfl, rfl, "." ++ nd.1, (String.append_assoc base "." nd.1).symm ▸ rfl⟩
  · intro h
    exact absurd h (by simp)

theorem stringItemEnumIssues_shape (kpIdx : String) (s : String) (sdef : Option PValue) :
    ∀ i ∈ stringItemEnumIssues kpIdx s sdef,
      i.code = "E004" ∧ i.severity = .error ∧ i.key_path = kpIdx := by
  unfold stringItemEnumIssues
  split
  · split
    · split <;> simp
    · simp
  · simp

/-! ## Claim C10: unknown declared type strings pass the type check -/

theorem nestedDictIssues_eq_nil (rm : String → String → Option Bool) (kp : String)
    (v : PValue) (kd : PValue) (hne : eqStrOpt (kdGet kd "pfm_type") "dictionary" = false) :
    nestedDictIssues rm kp v kd = [] := by
  cases v <;> simp [nestedDictIssues, hne]

theorem arrayItemIssues_eq_nil (rm : String → String → Option Bool) (kp : String)
    (v : PValue) (kd : PValue) (hne : eqStrOpt (kdGet kd "pfm_type") "array" = false) :
    arrayItemIssues rm kp v kd = [] := by
  cases v <;> simp [arrayItemIssues, hne]

/-- C10: a declared type string outside the eight known names makes the type
check pass for every value ("unknown type, assume valid"), so `_validate_key`
never emits a type-mismatch error for such a key and reduces to the
deprecation, enum, range and format checks (the recursive branches need the
declared type to be exactly "dictionary" or "array", so they are empty too). -/
theorem c10_unknown_type_passes (rm : String → String → Option Bool) (kp : String)
    (v : PValue) (kd : PValue) (t : String)
    (htype : kdGet kd "pfm_type" = some (.str t)) (hunk : t ∉ knownTypeNames) :
    type_matches v t = true ∧
    validate_key rm kp v kd =
      deprCheck kp kd ++ enumCheck kp v kd ++ rangeCheck kp v kd ++ formatCheck rm kp v kd ∧
    ∀ i ∈ validate_key rm kp v kd, i.code ≠ "E003" := by
  have hmatch : type_matches v t = true := by
    unfold type_matches
    rw [if_pos hunk]
  have hfail : typeCheckFails v kd = false := by
    simp [typeCheckFails, htype, typeMatchesV, hmatch]
  have hdict : eqStrOpt (kdGet kd "pfm_type") "dictionary" = false := by
    simp only [htype, eqStrOpt, pyEqStr, decide_eq_false_iff_not]
    rintro rfl
    exact hunk (by simp [knownTypeNames])
  have harr : eqStrOpt (kdGet kd "pfm_type") "array" = false := by
    simp only [htype, eqStrOpt, pyEqStr, decide_eq_false_iff_not]
    rintro rfl
    exact hunk (by simp [knownTypeNames])
  have heq : validate_key rm kp v kd =
      deprCheck kp kd ++ enumCheck kp v kd ++ rangeCheck kp v kd ++ formatCheck rm kp v kd := by
    rw [validate_key_eq, if_neg (by simp [hfail]),
      nestedDictIssues_eq_nil rm kp v kd hdict, arrayItemIssues_eq_nil rm kp v kd harr]
    simp
  refine ⟨hmatch, heq, ?_⟩
  intro i hi
  rw [heq] at hi
  simp only [List.mem_append] at hi
  rcases hi with ((hi | hi) | hi) | hi
  · rw [(deprCheck_shape kp kd i hi).1]
    decide
  · rw [(enumCheck_shape kp v kd i hi).1]
    decide
  · rw [(rangeCheck_shape kp v kd i hi).1]
    decide
  · rw [(formatCheck_shape rm kp v kd i hi).1]
    decide

/-- Closed instance of `c10_unknown_type_passes`: declared type "url" (not a
known type name), value an integer, with an enum list that still fires. -/
theorem c10_unknown_type_passes_witness :
    type_matches (.int 7) "url" = true ∧
    validate_key (fun _ _ => some true) "PayloadContent[0].Server" (.int 7)
      (.dict (.cons "pfm_type" (.str "url")
        (.cons "pfm_range_list" (.arr (.cons (.int 1) .nil)) .nil))) =
      deprCheck "PayloadContent[0].Server"
        (.dict (.cons "pfm_type" (.str "url")
          (.cons "pfm_range_list" (.arr (.cons (.int 1) .nil)) .nil))) ++
      enumCheck "PayloadContent[0].Server" (.int 7)
        (.dict (.cons "pfm_type" (.str "url")
          (.cons "pfm_range_list" (.arr (.cons (.int 1) .nil)) .nil))) ++
      rangeCheck "PayloadContent[0].Server" (.int 7)
        (.dict (.cons "pfm_type" (.str "url")
          (.cons "pfm_range_list" (.arr (.cons (.int 1) .nil)) .nil))) ++
      formatCheck (fun _ _ => some true) "PayloadContent[0].Server" (.int 7)
        (.dict (.cons "pfm_type" (.str "url")
          (.cons "pfm_range_list" (.arr (.cons (.int 1) .nil)) .nil))) ∧
    ∀ i ∈ validate_key (fun _ _ => some true) "PayloadContent[0].Server" (.int 7)
        (.dict (.cons "pfm_type" (.str "url")
          (.cons "pfm_range_list" (.arr (.cons (.int 1) .nil)) .nil))), i.code ≠ "E003" :=
  c10_unknown_type_passes (fun _ _ => some true) "PayloadContent[0].Server" (.int 7)
    (.dict (.cons "pfm_type" (.str "url")
      (.cons "pfm_range_list" (.arr (.cons (.int 1) .nil)) .nil)))
    "url" rfl (by decide)

/-! ## Claim C7: the wrapper-unwrap heuristic for array item schemas -/

/-- C7 (counterexample to the claim as stated): with a single
dictionary-typed wrapper entry that has **no** nested subkey definitions and
an element list in which no element carries the wrapper key, the claim says
the wrapper's (empty) nested definitions become the effective item
definitions, but `_unwrap_array_item_schema` keeps the original definitions
(`if nested_subkeys:` fails on the empty default). -/
theorem c7_counterexample :
    unwrapArrayItemSchema [("Services", .dict (.cons "pfm_type" (.str "dictionary") .nil))]
        (.cons (.dict .nil) .nil) =
      [("Services", .dict (.cons "pfm_type" (.str "dictionary") .nil))] ∧
    [("Services", PValue.dict (.cons "pfm_type" (.str "dictionary") .nil))] ≠
      ([] : List (String × PValue)) :=
  ⟨rfl, by simp⟩

/-- C7 (amended): under the wrapper pattern (exactly one item definition,
declared type "dictionary", no actual element carrying the wrapper key), the
wrapper's nested subkey definitions become the effective item definitions
**provided the wrapper has a truthy nested subkey list**; when the wrapper has
no (or an empty) `pfm_subkeys`, the original definitions are kept.  If any
element does carry the wrapper key, or the definition set is not a singleton,
the original definitions are used unchanged. -/
theorem c7_wrapper_unwrap (wname : String) (wd : PValue) (items : PList)
    (hdict : eqStrOpt (kdGet wd "pfm_type") "dictionary" = true) :
    (hasWrapperKey wname items = false →
      (∀ nested, kdGet wd "pfm_subkeys" = some (.arr nested) → pyTruthy (.arr nested) = true →
        unwrapArrayItemSchema [(wname, wd)] items = immediateSubkeyDefs nested) ∧
      (kdGet wd "pfm_subkeys" = none →
        unwrapArrayItemSchema [(wname, wd)] items = [(wname, wd)]) ∧
      (∀ nested, kdGet wd "pfm_subkeys" = some nested → pyTruthy nested = false →
        unwrapArrayItemSchema [(wname, wd)] items = [(wname, wd)])) ∧
    (hasWrapperKey wname items = true →
      unwrapArrayItemSchema [(wname, wd)] items = [(wname, wd)]) ∧
    (∀ defs : List (String × PValue), defs.length ≠ 1 →
      unwrapArrayItemSchema defs items = defs) := by
  refine ⟨fun hno => ⟨?_, ?_, ?_⟩, fun hyes => ?_, fun defs hlen => ?_⟩
  · intro nested hsub htr
    simp [unwrapArrayItemSchema, hdict, hno, hsub, htr]
  · intro hsub
    simp [unwrapArrayItemSchema, hdict, hno, hsub]
  · intro nested hsub htr
    cases nested <;> simp_all [unwrapArrayItemSchema, hdict, hno, hsub, htr]
  · simp [unwrapArrayItemSchema, hdict, hyes]
  · match defs, hlen with
    | [], _ => rfl
    | a :: b :: t, _ => rfl
    | [a], h => exact absurd rfl h

/-- Closed instance of `c7_wrapper_unwrap`: the TCC-style wrapper `Services`
is unwrapped to its nested `Identifier` definition. -/
theorem c7_wrapper_unwrap_witness :
    unwrapArrayItemSchema
      [("Services", .dict (.cons "pfm_type" (.str "dictionary")
        (.cons "pfm_subkeys" (.arr (.cons (.dict (.cons "pfm_name" (.str "Identifier")
          (.cons "pfm_type" (.str "string") .nil))) .nil)) .nil)))]
      (.cons (.dict (.cons "Identifier" (.str "com.example.app") .nil)) .nil) =
    immediateSubkeyDefs (.cons (.dict (.cons "pfm_name" (.str "Identifier")
      (.cons "pfm_type" (.str "string") .nil))) .nil) :=
  ((c7_wrapper_unwrap "Services"
      (.dict (.cons "pfm_type" (.str "dictionary")
        (.cons "pfm_subkeys" (.arr (.cons (.dict (.cons "pfm_name" (.str "Identifier")
          (.cons "pfm_type" (.str "string") .nil))) .nil)) .nil)))
      (.cons (.dict (.cons "Identifier" (.str "com.example.app") .nil)) .nil)
      rfl).1 rfl).1
    (.cons (.dict (.cons "pfm_name" (.str "Identifier")
      (.cons "pfm_type" (.str "string") .nil))) .nil) rfl rfl

/-! ## Issue shape of the recursive engine -/

/-- The issue codes `_validate_key` can produce. -/
def vkCodes : List String := ["W001", "E003", "E004", "E005", "E006", "E002"]

theorem pathExt_mono {kp q p : String} (hq : ∃ a, q = kp ++ a) (hp : ∃ s, p = q ++ s) :
    ∃ s', p = kp ++ s' := by
  obtain ⟨a, rfl⟩ := hq
  obtain ⟨s, rfl⟩ := hp
  exact ⟨a ++ s, String.append_assoc kp a s⟩

theorem pathExt_self (kp : String) : ∃ a, kp = kp ++ a :=
  ⟨"", (String.append_empty kp).symm⟩

theorem pathExt_dot (kp k : String) : ∃ a, kp ++ "." ++ k = kp ++ a :=
  ⟨"." ++ k, String.append_assoc kp "." k⟩

theorem pathExt_idx (kp x : String) : ∃ a, kp ++ "[" ++ x ++ "]" = kp ++ a :=
  ⟨"[" ++ x ++ "]", by simp [String.append_assoc]⟩

theorem validateArrayItems_cons_dict (rm : String → String → Option Bool) (kp : String)
    (idx : Nat) (d : PDict) (t : PList) (idefs : List (String × PValue))
    (sdef : Option PValue) :
    validateArrayItems rm kp idx (.cons (.dict d) t) idefs sdef =
      (requiredKeyIssues (kp ++ "[" ++ toString idx ++ "]") d idefs ++
       validateDictEntries rm (kp ++ "[" ++ toString idx ++ "]") d idefs) ++
      validateArrayItems rm kp (idx + 1) t idefs sdef := rfl

theorem validateArrayItems_cons_str (rm : String → String → Option Bool) (kp : String)
    (idx : Nat) (s : String) (t : PList) (idefs : List (String × PValue))
    (sdef : Option PValue) :
    validateArrayItems rm kp idx (.cons (.str s) t) idefs sdef =
      stringItemEnumIssues (kp ++ "[" ++ toString idx ++ "]") s sdef ++
      validateArrayItems rm kp (idx + 1) t idefs sdef := rfl

theorem validateArrayItems_cons_int (rm : String → String → Option Bool) (kp : String)
    (idx : Nat) (n : Int) (t : PList) (idefs : List (String × PValue)) (sdef : Option PValue) :
    validateArrayItems rm kp idx (.cons (.int n) t) idefs sdef =
      validateArrayItems rm kp (idx + 1) t idefs sdef := rfl

theorem validateArrayItems_cons_bool (rm : String → String → Option Bool) (kp : String)
    (idx : Nat) (b : Bool) (t : PList) (idefs : List (String × PValue)) (sdef : Option PValue) :
    validateArrayItems rm kp idx (.cons (.bool b) t) idefs sdef =
      validateArrayItems rm kp (idx + 1) t idefs sdef := rfl

theorem validateArrayItems_cons_real (rm : String → String → Option Bool) (kp : String)
    (idx : Nat) (q : Rat) (t : PList) (idefs : List (String × PValue)) (sdef : Option PValue) :
    validateArrayItems rm kp idx (.cons (.real q) t) idefs sdef =
      validateArrayItems rm kp (idx + 1) t idefs sdef := rfl

theorem validateArrayItems_cons_data (rm : String → String → Option Bool) (kp : String)
    (idx : Nat) (bs : List Nat) (t : PList) (idefs : List (String × PValue))
    (sdef : Option PValue) :
    validateArrayItems rm kp idx (.cons (.data bs) t) idefs sdef =
      validateArrayItems rm kp (idx + 1) t idefs sdef := rfl

theorem validateArrayItems_cons_date (rm : String → String → Option Bool) (kp : String)
    (idx : Nat) (d : Nat) (t : PList) (idefs : List (String × PValue)) (sdef : Option PValue) :
    validateArrayItems rm kp idx (.cons (.date d) t) idefs sdef =
      validateArrayItems rm kp (idx + 1) t idefs sdef := rfl

theorem validateArrayItems_cons_arr (rm : String → String → Option Bool) (kp : String)
    (idx : Nat) (l2 : PList) (t : PList) (idefs : List (String × PValue))
    (sdef : Option PValue) :
    validateArrayItems rm kp idx (.cons (.arr l2) t) idefs sdef =
      validateArrayItems rm kp (idx + 1) t idefs sdef := rfl

mutual

theorem validate_key_shape (rm : String → String → Option Bool) (kp : String) (v : PValue)
    (kd : PValue) :
    ∀ i ∈ validate_key rm kp v kd, i.code ∈ vkCodes ∧ ∃ s, i.key_path = kp ++ s := by
  intro i hi
  rw [validate_key_eq] at hi
  split at hi
  · rw [List.mem_append] at hi
    rcases hi with hi | hi
    · obtain ⟨hc, _, hp⟩ := deprCheck_shape kp kd i hi
      exact ⟨by simp [vkCodes, hc], hp ▸ pathExt_self kp⟩
    · rw [List.mem_singleton] at hi
      subst hi
      exact ⟨by simp [vkCodes], pathExt_self kp⟩
  · simp only [List.mem_append] at hi
    rcases hi with ((((hi | hi) | hi) | hi) | hi) | hi
    · obtain ⟨hc, _, hp⟩ := deprCheck_shape kp kd i hi
      exact ⟨by simp [vkCodes, hc], hp ▸ pathExt_self kp⟩
    · obtain ⟨hc, _, hp⟩ := enumCheck_shape kp v kd i hi
      exact ⟨by simp [vkCodes, hc], hp ▸ pathExt_self kp⟩
    · obtain ⟨hc, _, hp⟩ := rangeCheck_shape kp v kd i hi
      exact ⟨by simp [vkCodes, hc], hp ▸ pathExt_self kp⟩
    · obtain ⟨hc, _, hp⟩ := formatCheck_shape rm kp v kd i hi
      exact ⟨by simp [vkCodes, hc], hp ▸ pathExt_self kp⟩
    · cases v with
      | dict entries =>
        simp only [nestedDictIssues] at hi
        split at hi
        · split at hi
          · split at hi
            · rw [List.mem_append] at hi
              rcases hi with hi | hi
              · obtain ⟨hc, _, hp⟩ := requiredKeyIssues_shape kp entries
                  (immediateSubkeyDefs _) i hi
                exact ⟨by simp [vkCodes, hc], hp⟩
              · exact validateDictEntries_shape rm kp entries (immediateSubkeyDefs _) i hi
            · exact absurd hi (List.not_mem_nil i)
          · exact absurd hi (List.not_mem_nil i)
        · exact absurd hi (List.not_mem_nil i)
      | str s => exact absurd hi (List.not_mem_nil i)
      | int n => exact absurd hi (List.not_mem_nil i)
      | bool b => exact absurd hi (List.not_mem_nil i)
      | real q => exact absurd hi (List.not_mem_nil i)
      | data bs => exact absurd hi (List.not_mem_nil i)
      | date t => exact absurd hi (List.not_mem_nil i)
      | arr items =>
        simp only [nestedDictIssues] at hi
        exact absurd hi (List.not_mem_nil i)
    · cases v with
      | arr items =>
        simp only [arrayItemIssues] at hi
        split at hi
        · split at hi
          · split at hi
            · exact validateArrayItems_shape rm kp 0 items _ _ i hi
            · exact absurd hi (List.not_mem_nil i)
          · exact absurd hi (List.not_mem_nil i)
        · exact absurd hi (List.not_mem_nil i)
      | str s => exact absurd hi (List.not_mem_nil i)
      | int n => exact absurd hi (List.not_mem_nil i)
      | bool b => exact absurd hi (List.not_mem_nil i)
      | real q => exact absurd hi (List.not_mem_nil i)
      | data bs => exact absurd hi (List.not_mem_nil i)
      | date t => exact absurd hi (List.not_mem_nil i)
      | dict entries =>
        simp only [arrayItemIssues] at hi
        exact absurd hi (List.not_mem_nil i)
termination_by sizeOf v

theorem validateDictEntries_shape (rm : String → String → Option Bool) (kp : String)
    (d : PDict) (defs : List (String × PValue)) :
    ∀ i ∈ validateDictEntries rm kp d defs,
      i.code ∈ vkCodes ∧ ∃ s, i.key_path = kp ++ s := by
  intro i hi
  cases d with
  | nil => exact absurd hi (List.not_mem_nil i)
  | cons k v t =>
    simp only [validateDictEntries] at hi
    rw [List.mem_append] at hi
    rcases hi with hi | hi
    · split at hi
      · obtain ⟨hc, hp⟩ := validate_key_shape rm (kp ++ "." ++ k) v _ i hi
        exact ⟨hc, pathExt_mono (pathExt_dot kp k) hp⟩
      · exact absurd hi (List.not_mem_nil i)
    · exact validateDictEntries_shape rm kp t defs i hi
termination_by sizeOf d

theorem validateArrayItems_shape (rm : String → String → Option Bool) (kp : String)
    (idx : Nat) (l : PList) (idefs : List (String × PValue)) (sdef : Option PValue) :
    ∀ i ∈ validateArrayItems rm kp idx l idefs sdef,
      i.code ∈ vkCodes ∧ ∃ s, i.key_path = kp ++ s := by
  intro i hi
  cases l with
  | nil => exact absurd hi (List.not_mem_nil i)
  | cons item t =>
    have hbase := pathExt_idx kp (toString idx)
    cases item with
    | dict d =>
      rw [validateArrayItems_cons_dict] at hi
      rw [List.mem_append] at hi
      rcases hi with hi | hi
      · rw [List.mem_append] at hi
        rcases hi with hi | hi
        · obtain ⟨hc, _, hp⟩ := requiredKeyIssues_shape (kp ++ "[" ++ toString idx ++ "]") d
            idefs i hi
          exact ⟨by simp [vkCodes, hc], pathExt_mono hbase hp⟩
        · obtain ⟨hc, hp⟩ := validateDictEntries_shape rm (kp ++ "[" ++ toString idx ++ "]")
            d idefs i hi
          exact ⟨hc, pathExt_mono hbase hp⟩
      · exact validateArrayItems_shape rm kp (idx + 1) t idefs sdef i hi
    | str s =>
      rw [validateArrayItems_cons_str] at hi
      rw [List.mem_append] at hi
      rcases hi with hi | hi
      · obtain ⟨hc, _, hp⟩ := stringItemEnumIssues_shape (kp ++ "[" ++ toString idx ++ "]")
          s sdef i hi
        exact ⟨by simp [vkCodes, hc], hp ▸ hbase⟩
      · exact validateArrayItems_shape rm kp (idx + 1) t idefs sdef i hi
    | int n =>
      rw [validateArrayItems_cons_int] at hi
      exact validateArrayItems_shape rm kp (idx + 1) t idefs sdef i hi
    | bool b =>
      rw [validateArrayItems_cons_bool] at hi
      exact validateArrayItems_shape rm kp (idx + 1) t idefs sdef i hi
    | real q =>
      rw [validateArrayItems_cons_real] at hi
      exact validateArrayItems_shape rm kp (idx + 1) t idefs sdef i hi
    | data bs =>
      rw [validateArrayItems_cons_data] at hi
      exact validateArrayItems_shape rm kp (idx + 1) t idefs sdef i hi
    | date tt =>
      rw [validateArrayItems_cons_date] at hi
      exact validateArrayItems_shape rm kp (idx + 1) t idefs sdef i hi
    | arr l2 =>
      rw [validateArrayItems_cons_arr] at hi
      exact validateArrayItems_shape rm kp (idx + 1) t idefs sdef i hi
termination_by sizeOf l

end

/-! ## Issue shape of the payload-level checks -/

/-- The issue codes `_validate_payload_against_manifest` can produce. -/
def pmCodes : List String :=
  ["W003", "W002", "W001", "E003", "E004", "E005", "E006", "E002"]

theorem platformIssues_shape (m : PValue) (pfx : String) :
    ∀ i ∈ platformIssues m pfx,
      i.code = "W003" ∧ i.severity = .warning ∧ i.key_path = pfx := by
  intro i hi
  unfold platformIssues at hi
  repeat' split at hi
  all_goals simp at hi
  subst hi
  exact ⟨rfl, rfl, rfl⟩

theorem manifestRequiredIssues_shape (payload : PDict) (defs : List (String × PValue))
    (pfx : String) :
    ∀ i ∈ manifestRequiredIssues payload defs pfx,
      i.code = "E002" ∧ i.severity = .error ∧ ∃ s, i.key_path = pfx ++ s := by
  intro i hi
  unfold manifestRequiredIssues at hi
  rw [List.mem_filterMap] at hi
  obtain ⟨nd, _, hnd⟩ := hi
  repeat' split at hnd
  all_goals simp at hnd
  subst hnd
  exact ⟨rfl, rfl, pathExt_dot pfx nd.1⟩

theorem payloadKeyIssues_shape (rm : String → String → Option Bool) (payload : PDict)
    (defs : List (String × PValue)) (pfx : String) :
    ∀ i ∈ payloadKeyIssues rm payload defs pfx,
      i.code ∈ pmCodes ∧ ∃ s, i.key_path = pfx ++ s := by
  intro i hi
  cases payload with
  | nil => exact absurd hi (List.not_mem_nil i)
  | cons k v t =>
    simp only [payloadKeyIssues, List.mem_append] at hi
    rcases hi with hi | hi
    · split at hi
      · exact absurd hi (List.not_mem_nil i)
      · split at hi
        · obtain ⟨hc, hp⟩ := validate_key_shape rm (pfx ++ "." ++ k) v _ i hi
          refine ⟨?_, pathExt_mono (pathExt_dot pfx k) hp⟩
          simp only [vkCodes] at hc
          simp only [pmCodes]
          simp at hc ⊢
          tauto
        · rw [List.mem_singleton] at hi
          subst hi
          exact ⟨by simp [pmCodes], pathExt_dot pfx k⟩
    · exact payloadKeyIssues_shape rm t defs pfx i hi
termination_by sizeOf payload

theorem validate_payload_against_manifest_shape (rm : String → String → Option Bool)
    (payload : PDict) (m : PValue) (pfx : String) :
    ∀ i ∈ validate_payload_against_manifest rm payload m pfx,
      i.code ∈ pmCodes ∧ ∃ s, i.key_path = pfx ++ s := by
  intro i hi
  unfold validate_payload_against_manifest at hi
  simp only [List.mem_append] at hi
  rcases hi with (hi | hi) | hi
  · obtain ⟨hc, _, hp⟩ := platformIssues_shape m pfx i hi
    exact ⟨by simp [pmCodes, hc], hp ▸ pathExt_self pfx⟩
  · obtain ⟨hc, _, hp⟩ := manifestRequiredIssues_shape payload _ pfx i hi
    exact ⟨by simp [pmCodes, hc], hp⟩
  · exact payloadKeyIssues_shape rm payload _ pfx i hi

theorem validate_uuid_shape (v : PValue) (kp : String) :
    ∀ i ∈ validate_uuid v kp,
      i.code = "E007" ∧ i.severity = .error ∧ i.key_path = kp := by
  intro i hi
  unfold validate_uuid at hi
  repeat' split at hi
  all_goals simp at hi
  subst hi
  exact ⟨rfl, rfl, rfl⟩

theorem validate_payload_structure_shape (pl : PDict) (pfx : String) :
    ∀ i ∈ validate_payload_structure pl pfx,
      i.code ∈ ["E002", "E008", "E007"] ∧ i.severity = .error ∧
        ∃ s, i.key_path = pfx ++ s := by
  intro i hi
  unfold validate_payload_structure at hi
  simp only [List.mem_append] at hi
  rcases hi with (hi | hi) | hi
  · rw [List.mem_filterMap] at hi
    obtain ⟨k, hk, hik⟩ := hi
    split at hik
    · exact absurd hik (by simp)
    · simp at hik
      subst hik
      exact ⟨by simp, rfl, pathExt_dot pfx k⟩
  · repeat' split at hi
    all_goals simp at hi
    subst hi
    exact ⟨by simp, rfl, ".PayloadVersion", rfl⟩
  · repeat' split at hi
    all_goals try exact absurd hi (List.not_mem_nil i)
    obtain ⟨hc, hs, hp⟩ := validate_uuid_shape _ (pfx ++ ".PayloadUUID") i hi
    exact ⟨by simp [hc], hs, hp ▸ ⟨".PayloadUUID", rfl⟩⟩

theorem dupIdIssues_shape (idents : List PValue) :
    ∀ i ∈ dupIdIssues idents,
      i.code = "I003" ∧ i.severity = .info ∧ i.key_path = "PayloadIdentifier" := by
  intro i hi
  unfold dupIdIssues at hi
  rw [List.mem_filterMap] at hi
  obtain ⟨kn, _, hkn⟩ := hi
  split at hkn
  · simp at hkn
    subst hkn
    exact ⟨rfl, rfl, rfl⟩
  · exact absurd hkn (by simp)

/-- All issue codes one payload-loop iteration can produce. -/
def stepCodes : List String := ["E003", "E009", "E001", "E008", "E007"] ++ pmCodes

theorem elemUuidStep_shape (pl : PDict) (pfx : String) (uuids : List PValue) :
    ∀ i ∈ (elemUuidStep pl pfx uuids).1,
      i.code = "E009" ∧ i.severity = .error ∧ i.key_path = pfx ++ ".PayloadUUID" := by
  intro i hi
  unfold elemUuidStep at hi
  repeat' split at hi
  all_goals simp at hi
  subst hi
  exact ⟨rfl, rfl, rfl⟩

theorem elemSchemaStep_shape (getm getv : PValue → Option PValue)
    (rm : String → String → Option Bool) (pl : PDict) (pfx : String)
    (versions : List (PValue × PValue)) :
    ∀ i ∈ (elemSchemaStep getm getv rm pl pfx versions).1,
      i.code ∈ "E001" :: pmCodes ∧ ∃ s, i.key_path = pfx ++ s := by
  intro i hi
  unfold elemSchemaStep at hi
  cases hg : getm (pl.getD "PayloadType" (PValue.str "")) with
  | none =>
    simp only [hg] at hi
    rw [List.mem_singleton] at hi
    subst hi
    exact ⟨by simp [e001Issue, pmCodes], ⟨".PayloadType", by simp [e001Issue]⟩⟩
  | some m =>
    simp only [hg] at hi
    split at hi
    · obtain ⟨hc, hp⟩ := validate_payload_against_manifest_shape rm pl m pfx i hi
      exact ⟨List.mem_cons_of_mem _ hc, hp⟩
    · rw [List.mem_singleton] at hi
      subst hi
      exact ⟨by simp [e001Issue, pmCodes], ⟨".PayloadType", by simp [e001Issue]⟩⟩

theorem payloadStep_shape (getm getv : PValue → Option PValue)
    (rm : String → String → Option Bool) (idx : Nat) (p : PValue) (st : LoopState) :
    ∀ i ∈ (payloadStep getm getv rm idx p st).2,
      i.code ∈ stepCodes ∧ ∃ s, i.key_path = "PayloadContent[" ++ s := by
  intro i hi
  have hpfx : ∃ a, "PayloadContent[" ++ toString idx ++ "]" = "PayloadContent[" ++ a :=
    ⟨toString idx ++ "]", by rw [String.append_assoc]⟩
  cases p with
  | dict pl =>
    simp only [payloadStep, List.mem_append] at hi
    rcases hi with (hi | hi) | hi
    · obtain ⟨hc, _, hp⟩ := elemUuidStep_shape pl _ st.uuids i hi
      exact ⟨by simp [stepCodes, hc],
        pathExt_mono hpfx (hp ▸ ⟨".PayloadUUID", rfl⟩)⟩
    · obtain ⟨hc, _, hp⟩ := validate_payload_structure_shape pl _ i hi
      refine ⟨by simp [stepCodes, pmCodes]; simp at hc; tauto, pathExt_mono hpfx hp⟩
    · obtain ⟨hc, hp⟩ := elemSchemaStep_shape getm getv rm pl _ st.versions i hi
      refine ⟨?_, pathExt_mono hpfx hp⟩
      simp only [List.mem_cons] at hc
      simp only [stepCodes, pmCodes, List.mem_cons, List.mem_append]
      simp only [pmCodes, List.mem_cons, List.not_mem_nil, or_false] at hc
      tauto
  | str s =>
    simp only [payloadStep] at hi
    rw [List.mem_singleton] at hi
    subst hi
    exact ⟨by simp [stepCodes], hpfx⟩
  | int n =>
    simp only [payloadStep] at hi
    rw [List.mem_singleton] at hi
    subst hi
    exact ⟨by simp [stepCodes], hpfx⟩
  | bool b =>
    simp only [payloadStep] at hi
    rw [List.mem_singleton] at hi
    subst hi
    exact ⟨by simp [stepCodes], hpfx⟩
  | real q =>
    simp only [payloadStep] at hi
    rw [List.mem_singleton] at hi
    subst hi
    exact ⟨by simp [stepCodes], hpfx⟩
  | data bs =>
    simp only [payloadStep] at hi
    rw [List.mem_singleton] at hi
    subst hi
    exact ⟨by simp [stepCodes], hpfx⟩
  | date t =>
    simp only [payloadStep] at hi
    rw [List.mem_singleton] at hi
    subst hi
    exact ⟨by simp [stepCodes], hpfx⟩
  | arr l =>
    simp only [payloadStep] at hi
    rw [List.mem_singleton] at hi
    subst hi
    exact ⟨by simp [stepCodes], hpfx⟩

theorem runPayloads_shape (getm getv : PValue → Option PValue)
    (rm : String → String → Option Bool) (idx : Nat) (l : PList) (st : LoopState) :
    ∀ i ∈ (runPayloads getm getv rm idx l st).2,
      i.code ∈ stepCodes ∧ ∃ s, i.key_path = "PayloadContent[" ++ s := by
  intro i hi
  cases l with
  | nil => exact absurd hi (List.not_mem_nil i)
  | cons p t =>
    simp only [runPayloads, List.mem_append] at hi
    rcases hi with hi | hi
    · exact payloadStep_shape getm getv rm idx p st i hi
    · exact runPayloads_shape getm getv rm (idx + 1) t _ i hi
termination_by sizeOf l

/-! ## Claim C4: missing required top-level fields -/

/-- The error-at-path test used for counting. -/
def errAt (k : String) : ValidationIssue → Bool := fun i =>
  i.severity == Severity.error && i.key_path == k

theorem countP_errAt_zero {l : List ValidationIssue} {k : String}
    (h : ∀ i ∈ l, i.severity ≠ Severity.error ∨ i.key_path ≠ k) :
    l.countP (errAt k) = 0 := by
  rw [List.countP_eq_zero]
  intro i hi
  rcases h i hi with h' | h' <;> simp [errAt, h']

/-- A string extending a prefix whose characters disagree with `q` is not
`q`. -/
theorem append_ne_of_take (pfx q : String)
    (h : q.data.take pfx.data.length ≠ pfx.data) : ∀ s, pfx ++ s ≠ q := by
  intro s he
  apply h
  rw [← he, String.data_append, List.take_left]

theorem payloadPath_ne_type : ∀ s, "PayloadContent[" ++ s ≠ "PayloadType" :=
  append_ne_of_take _ _ (by decide)

theorem payloadPath_ne_version : ∀ s, "PayloadContent[" ++ s ≠ "PayloadVersion" :=
  append_ne_of_take _ _ (by decide)

theorem payloadPath_ne_identifier : ∀ s, "PayloadContent[" ++ s ≠ "PayloadIdentifier" :=
  append_ne_of_take _ _ (by decide)

theorem payloadPath_ne_uuid : ∀ s, "PayloadContent[" ++ s ≠ "PayloadUUID" :=
  append_ne_of_take _ _ (by decide)

theorem runPayloads_errAt_zero (getm getv : PValue → Option PValue)
    (rm : String → String → Option Bool) (idx : Nat) (l : PList) (st : LoopState)
    (k : String) (hk : ∀ s, "PayloadContent[" ++ s ≠ k) :
    (runPayloads getm getv rm idx l st).2.countP (errAt k) = 0 :=
  countP_errAt_zero fun i hi => by
    obtain ⟨_, s, hp⟩ := runPayloads_shape getm getv rm idx l st i hi
    exact Or.inr (by rw [hp]; exact hk s)

theorem dupIdIssues_errAt_zero (idents : List PValue) (k : String) :
    (dupIdIssues idents).countP (errAt k) = 0 :=
  countP_errAt_zero fun i hi => by
    obtain ⟨_, hs, _⟩ := dupIdIssues_shape idents i hi
    exact Or.inl (by rw [hs]; exact fun h => Severity.noConfusion h)

theorem PDict.get_eq_none_of_has_false {p : PDict} {k : String} (h : p.has k = false) :
    p.get k = none := by
  unfold PDict.has at h
  cases hg : p.get k with
  | none => rfl
  | some v => rw [hg] at h; simp at h

theorem req_chunk_count (p : PDict) (k : String) (hk : k ∈ requiredEnvelopeKeys) :
    (requiredEnvelopeKeys.filterMap fun q =>
      if p.has q then none
      else some { severity := Severity.error, code := "E002",
                  message := "Missing required key: " ++ q, key_path := q }).countP (errAt k) =
      if p.has k then 0 else 1 := by
  simp only [requiredEnvelopeKeys, List.mem_cons, List.not_mem_nil, or_false] at hk
  rcases hk with rfl | rfl | rfl | rfl <;>
  · by_cases h1 : p.has "PayloadType" <;> by_cases h2 : p.has "PayloadVersion" <;>
    by_cases h3 : p.has "PayloadIdentifier" <;> by_cases h4 : p.has "PayloadUUID" <;>
    simp [requiredEnvelopeKeys, h1, h2, h3, h4, errAt, List.countP_cons]

theorem confChunk_count (p : PDict) (k : String) :
    (if eqStrOpt (p.get "PayloadType") "Configuration" then []
     else [{ severity := Severity.error, code := "E004",
             message := "Outer PayloadType must be 'Configuration'", key_path := "PayloadType",
             expected := some (.str "Configuration"),
             actual := p.get "PayloadType" }]).countP (errAt k) =
      if eqStrOpt (p.get "PayloadType") "Configuration" then 0
      else if k = "PayloadType" then 1 else 0 := by
  split
  · simp
  · by_cases hk : k = "PayloadType"
    · subst hk
      simp [errAt, List.countP_cons]
    · simp [errAt, List.countP_cons, hk, Ne.symm hk]

theorem verChunk_count (p : PDict) (k : String)
    (hk : p.get "PayloadVersion" = none ∨ k ≠ "PayloadVersion") :
    (match p.get "PayloadVersion" with
     | some v =>
       if ¬ pyEqInt v 1 then
         ([{ severity := Severity.error, code := "E008",
             message := "PayloadVersion should be 1", key_path := "PayloadVersion",
             expected := some (.int 1), actual := some v }] : List ValidationIssue)
       else []
     | none => ([] : List ValidationIssue)).countP (errAt k) = 0 := by
  refine countP_errAt_zero fun i hi => Or.inr ?_
  rcases hk with hk | hk
  · rw [hk] at hi
    exact absurd hi (List.not_mem_nil i)
  · cases hv : p.get "PayloadVersion" with
    | none =>
      rw [hv] at hi
      exact absurd hi (List.not_mem_nil i)
    | some v =>
      simp only [hv] at hi
      split at hi
      · rw [List.mem_singleton] at hi
        subst hi
        exact Ne.symm hk
      · exact absurd hi (List.not_mem_nil i)

theorem uuidChunk_count (p : PDict) (k : String)
    (hk : p.get "PayloadUUID" = none ∨ k ≠ "PayloadUUID") :
    (match p.get "PayloadUUID" with
     | some v => if pyTruthy v then validate_uuid v "PayloadUUID" else []
     | none => ([] : List ValidationIssue)).countP (errAt k) = 0 := by
  refine countP_errAt_zero fun i hi => Or.inr ?_
  rcases hk with hk | hk
  · rw [hk] at hi
    exact absurd hi (List.not_mem_nil i)
  · cases hv : p.get "PayloadUUID" with
    | none =>
      rw [hv] at hi
      exact absurd hi (List.not_mem_nil i)
    | some v =>
      simp only [hv] at hi
      split at hi
      · obtain ⟨_, _, hp⟩ := validate_uuid_shape v "PayloadUUID" i hi
        rw [hp]
        exact Ne.symm hk
      · exact absurd hi (List.not_mem_nil i)

theorem orgChunk_count (p : PDict) (k : String) :
    (if p.has "PayloadOrganization" then []
     else [{ severity := Severity.info, code := "I002",
             message := "Consider adding PayloadOrganization",
             key_path := "PayloadOrganization" }]).countP (errAt k) = 0 := by
  split
  · simp
  · simp [errAt, List.countP_cons]

theorem struct_errAt_count (p : PDict) :
    (p.has "PayloadVersion" = false →
      (validate_profile_structure p).countP (errAt "PayloadVersion") = 1) ∧
    (p.has "PayloadIdentifier" = false →
      (validate_profile_structure p).countP (errAt "PayloadIdentifier") = 1) ∧
    (p.has "PayloadUUID" = false →
      (validate_profile_structure p).countP (errAt "PayloadUUID") = 1) ∧
    (p.has "PayloadType" = false →
      (validate_profile_structure p).countP (errAt "PayloadType") = 2) := by
  refine ⟨fun h => ?_, fun h => ?_, fun h => ?_, fun h => ?_⟩ <;>
    unfold validate_profile_structure <;>
    rw [List.countP_append, List.countP_append, List.countP_append, List.countP_append]
  · rw [req_chunk_count p "PayloadVersion" (by simp [requiredEnvelopeKeys]), if_neg (by simp [h]),
      confChunk_count,
      verChunk_count p "PayloadVersion" (Or.inl (PDict.get_eq_none_of_has_false h)),
      uuidChunk_count p "PayloadVersion" (Or.inr (by decide)), orgChunk_count]
    split <;> simp
  · rw [req_chunk_count p "PayloadIdentifier" (by simp [requiredEnvelopeKeys]),
      if_neg (by simp [h]), confChunk_count,
      verChunk_count p "PayloadIdentifier" (Or.inr (by decide)),
      uuidChunk_count p "PayloadIdentifier" (Or.inr (by decide)), orgChunk_count]
    split <;> simp
  · rw [req_chunk_count p "PayloadUUID" (by simp [requiredEnvelopeKeys]), if_neg (by simp [h]),
      confChunk_count, verChunk_count p "PayloadUUID" (Or.inr (by decide)),
      uuidChunk_count p "PayloadUUID" (Or.inl (PDict.get_eq_none_of_has_false h)),
      orgChunk_count]
    split <;> simp
  · rw [req_chunk_count p "PayloadType" (by simp [requiredEnvelopeKeys]), if_neg (by simp [h]),
      confChunk_count, verChunk_count p "PayloadType" (Or.inr (by decide)),
      uuidChunk_count p "PayloadType" (Or.inr (by decide)), orgChunk_count,
      if_neg (by simp [eqStrOpt, PDict.get_eq_none_of_has_false h])]
    simp

theorem contentChunk_count (k : String) (tn : String) (hk2 : "PayloadContent" ≠ k) :
    ([{ severity := Severity.error, code := "E003",
        message := "PayloadContent must be an array", key_path := "PayloadContent",
        expected := some (.str "array"), actual := some (.str tn) }] :
      List ValidationIssue).countP (errAt k) = 0 := by
  simp [errAt, List.countP_cons, hk2]

theorem validate_errAt_eq_struct (getm getv : PValue → Option PValue)
    (rm : String → String → Option Bool) (profile : PDict) (k : String)
    (hk : ∀ s, "PayloadContent[" ++ s ≠ k) (hk2 : "PayloadContent" ≠ k) :
    (validate getm getv rm profile).issues.countP (errAt k) =
      (validate_profile_structure profile).countP (errAt k) := by
  rcases hpc : profile.getD "PayloadContent" (.arr .nil) with s | n | b | q | bs | t | pcs | d
  case arr =>
    simp only [validate, hpc, List.countP_append]
    rw [runPayloads_errAt_zero getm getv rm 0 pcs (loopStateInit profile) k hk,
      dupIdIssues_errAt_zero]
    omega
  all_goals
    simp only [validate, hpc, List.countP_append]
    rw [contentChunk_count k _ hk2]
    omega

/-- A resolver that never finds a manifest, and a regex engine that never
compiles a pattern: the simplest stand-ins for the external collaborators in
closed instances. -/
def noResolve : PValue → Option PValue := fun _ => none

def noRegex : String → String → Option Bool := fun _ _ => none

/-- C4 (counterexample to the claim as stated): on the empty document, the
missing top-level type field produces **two** error-severity issues at
key-path `PayloadType` — the missing-required-key error (E002) and the
`PayloadType must be 'Configuration'` error (E004), which also fires because
the absent field compares unequal to the sentinel — not exactly one. -/
theorem c4_counterexample :
    ((validate noResolve noResolve noRegex .nil).issues.countP (errAt "PayloadType")) = 2 := by
  decide

/-- C4 (amended): a document missing the required version, identifier or
unique-identifier top-level field gets exactly one error-severity issue at
that field's name; a document missing the type field gets exactly two (the
missing-key error plus the sentinel-value error at the same key-path). -/
theorem c4_missing_required_field (getm getv : PValue → Option PValue)
    (rm : String → String → Option Bool) (profile : PDict)
    (_hdoc : docOk profile = true) (_hm : manifestsOk getm) :
    (∀ k ∈ (["PayloadVersion", "PayloadIdentifier", "PayloadUUID"] : List String),
      profile.has k = false →
      ((validate getm getv rm profile).issues.countP (errAt k)) = 1) ∧
    (profile.has "PayloadType" = false →
      ((validate getm getv rm profile).issues.countP (errAt "PayloadType")) = 2) := by
  constructor
  · intro k hk hmiss
    simp only [List.mem_cons, List.not_mem_nil, or_false] at hk
    rcases hk with rfl | rfl | rfl
    · rw [validate_errAt_eq_struct getm getv rm profile _ payloadPath_ne_version (by decide)]
      exact (struct_errAt_count profile).1 hmiss
    · rw [validate_errAt_eq_struct getm getv rm profile _ payloadPath_ne_identifier (by decide)]
      exact (struct_errAt_count profile).2.1 hmiss
    · rw [validate_errAt_eq_struct getm getv rm profile _ payloadPath_ne_uuid (by decide)]
      exact (struct_errAt_count profile).2.2.1 hmiss
  · intro hmiss
    rw [validate_errAt_eq_struct getm getv rm profile _ payloadPath_ne_type (by decide)]
    exact (struct_errAt_count profile).2.2.2 hmiss

/-- Closed instance of `c4_missing_required_field`: a document that has only
its type field set gets exactly one error at `PayloadVersion`. -/
theorem c4_missing_required_field_witness :
    ((validate noResolve noResolve noRegex
        (.cons "PayloadType" (.str "Configuration") .nil)).issues.countP
      (errAt "PayloadVersion")) = 1 :=
  (c4_missing_required_field noResolve noResolve noRegex
      (.cons "PayloadType" (.str "Configuration") .nil) (by decide)
      (fun _ _ h => absurd h (by simp [noResolve]))).1
    "PayloadVersion" (by decide) (by decide)

/-! ## Claim C5: duplicate `PayloadUUID` detection -/

theorem countP_code_zero {l : List ValidationIssue} {c : String}
    (h : ∀ i ∈ l, i.code ≠ c) : l.countP (fun i => i.code == c) = 0 := by
  rw [List.countP_eq_zero]
  intro i hi
  simp [h i hi]

theorem elemSchemaStep_no_E009 (getm getv : PValue → Option PValue)
    (rm : String → String → Option Bool) (pl : PDict) (pfx : String)
    (versions : List (PValue × PValue)) :
    ∀ i ∈ (elemSchemaStep getm getv rm pl pfx versions).1, i.code ≠ "E009" := by
  intro i hi
  obtain ⟨hc, _⟩ := elemSchemaStep_shape getm getv rm pl pfx versions i hi
  simp only [pmCodes, List.mem_cons, List.not_mem_nil, or_false] at hc
  rcases hc with hc | hc | hc | hc | hc | hc | hc | hc | hc <;> (rw [hc]; decide)

theorem validate_payload_structure_no_E009 (pl : PDict) (pfx : String) :
    ∀ i ∈ validate_payload_structure pl pfx, i.code ≠ "E009" := by
  intro i hi
  obtain ⟨hc, _, _⟩ := validate_payload_structure_shape pl pfx i hi
  simp only [List.mem_cons, List.not_mem_nil, or_false] at hc
  rcases hc with hc | hc | hc <;> (rw [hc]; decide)

/-- C5: when a (dict) payload element's truthy `PayloadUUID` is already in the
seen-set, the loop iteration emits exactly one E009 issue; that issue has
error severity and sits at the element's `PayloadUUID` key-path; and the UUID
is still in the seen-set afterwards, so a later occurrence of the same UUID
collides again. -/
theorem c5_duplicate_uuid (getm getv : PValue → Option PValue)
    (rm : String → String → Option Bool) (idx : Nat) (pl : PDict) (st : LoopState)
    (u : PValue)
    (_henv : envOk pl = true) (_hm : manifestsOk getm)
    (hu : pl.get "PayloadUUID" = some u) (htr : pyTruthy u = true)
    (hmem : pyMemSet u st.uuids = true) :
    ((payloadStep getm getv rm idx (.dict pl) st).2.countP fun i => i.code == "E009") = 1 ∧
    (∀ i ∈ (payloadStep getm getv rm idx (.dict pl) st).2, i.code = "E009" →
      i.severity = Severity.error ∧
      i.key_path = "PayloadContent[" ++ toString idx ++ "]" ++ ".PayloadUUID") ∧
    pyMemSet u (payloadStep getm getv rm idx (.dict pl) st).1.uuids = true := by
  have huuid : elemUuidStep pl ("PayloadContent[" ++ toString idx ++ "]") st.uuids =
      ([{ severity := .error, code := "E009", message := "Duplicate PayloadUUID",
          key_path := "PayloadContent[" ++ toString idx ++ "]" ++ ".PayloadUUID",
          actual := some u }], st.uuids) := by
    unfold elemUuidStep
    rw [hu]
    simp only [htr, if_true, hmem, if_pos]
    rw [addUuid, if_pos hmem]
  simp only [payloadStep, huuid]
  refine ⟨?_, ?_, ?_⟩
  · rw [List.countP_append, List.countP_append]
    rw [countP_code_zero (validate_payload_structure_no_E009 pl _),
      countP_code_zero (elemSchemaStep_no_E009 getm getv rm pl _ st.versions)]
    simp
  · intro i hi hcode
    simp only [List.mem_append] at hi
    rcases hi with (hi | hi) | hi
    · rw [List.mem_singleton] at hi
      subst hi
      exact ⟨rfl, rfl⟩
    · exact absurd hcode (validate_payload_structure_no_E009 pl _ i hi)
    · exact absurd hcode (elemSchemaStep_no_E009 getm getv rm pl _ st.versions i hi)
  · exact hmem

/-- `noResolve` trivially satisfies the manifest well-formedness contract. -/
theorem noResolve_manifestsOk : manifestsOk noResolve := by
  intro v m h
  simp [noResolve] at h

/-- Closed instance of `c5_duplicate_uuid`: a payload whose UUID equals the
document-level one already in the seen-set. -/
theorem c5_duplicate_uuid_witness :
    ((payloadStep noResolve noResolve noRegex 0
        (.dict (.cons "PayloadUUID" (.str "f81d4fae-7dec-11d0-a765-00a0c91e6bf6") .nil))
        { uuids := [.str "f81d4fae-7dec-11d0-a765-00a0c91e6bf6"], idents := [],
          ptypes := [], versions := [] }).2.countP fun i => i.code == "E009") = 1 :=
  (c5_duplicate_uuid noResolve noResolve noRegex 0
      (.cons "PayloadUUID" (.str "f81d4fae-7dec-11d0-a765-00a0c91e6bf6") .nil)
      { uuids := [.str "f81d4fae-7dec-11d0-a765-00a0c91e6bf6"], idents := [],
        ptypes := [], versions := [] }
      (.str "f81d4fae-7dec-11d0-a765-00a0c91e6bf6")
      (by decide) noResolve_manifestsOk rfl (by decide) (by decide)).1

/-! ## Claim C6: unresolved payload types give a lone E001 warning -/

theorem elemSchemaStep_unresolved (getm getv : PValue → Option PValue)
    (rm : String → String → Option Bool) (pl : PDict) (pfx : String)
    (versions : List (PValue × PValue))
    (h : optTruthy (getm (pl.getD "PayloadType" (.str ""))) = false) :
    elemSchemaStep getm getv rm pl pfx versions =
      ([e001Issue pfx (pl.getD "PayloadType" (.str ""))], versions) := by
  unfold elemSchemaStep
  cases hg : getm (pl.getD "PayloadType" (PValue.str "")) with
  | none => simp [hg]
  | some m =>
    rw [hg] at h
    simp only [optTruthy] at h
    simp [hg, h]

theorem elemUuidStep_no_E001 (pl : PDict) (pfx : String) (uuids : List PValue) :
    ∀ i ∈ (elemUuidStep pl pfx uuids).1, i.code ≠ "E001" := by
  intro i hi
  obtain ⟨hc, _, _⟩ := elemUuidStep_shape pl pfx uuids i hi
  rw [hc]
  decide

theorem validate_payload_structure_no_E001 (pl : PDict) (pfx : String) :
    ∀ i ∈ validate_payload_structure pl pfx, i.code ≠ "E001" := by
  intro i hi
  obtain ⟨hc, _, _⟩ := validate_payload_structure_shape pl pfx i hi
  simp only [List.mem_cons, List.not_mem_nil, or_false] at hc
  rcases hc with hc | hc | hc <;> (rw [hc]; decide)

/-- C6: when a (dict) payload element's type identifier does not resolve to a
truthy manifest, the loop iteration emits exactly one issue carrying code
E001; that issue has warning severity (never error) and sits at the element's
`PayloadType` key-path; and appending a warning-severity issue never changes
`is_valid`. -/
theorem c6_unknown_type_warning (getm getv : PValue → Option PValue)
    (rm : String → String → Option Bool) (idx : Nat) (pl : PDict) (st : LoopState)
    (_henv : envOk pl = true)
    (hnores : optTruthy (getm (pl.getD "PayloadType" (.str ""))) = false) :
    ((payloadStep getm getv rm idx (.dict pl) st).2.countP fun i => i.code == "E001") = 1 ∧
    (∀ i ∈ (payloadStep getm getv rm idx (.dict pl) st).2, i.code = "E001" →
      i.severity = Severity.warning ∧
      i.key_path = "PayloadContent[" ++ toString idx ++ "]" ++ ".PayloadType") ∧
    (∀ (issues : List ValidationIssue) (w : ValidationIssue),
      w.severity = Severity.warning →
      isValidIssues (issues ++ [w]) = isValidIssues issues) := by
  have hschema := elemSchemaStep_unresolved getm getv rm pl
    ("PayloadContent[" ++ toString idx ++ "]") st.versions hnores
  simp only [payloadStep, hschema]
  refine ⟨?_, ?_, ?_⟩
  · rw [List.countP_append, List.countP_append]
    rw [countP_code_zero (elemUuidStep_no_E001 pl _ st.uuids),
      countP_code_zero (validate_payload_structure_no_E001 pl _)]
    simp [e001Issue]
  · intro i hi hcode
    simp only [List.mem_append] at hi
    rcases hi with (hi | hi) | hi
    · exact absurd hcode (elemUuidStep_no_E001 pl _ st.uuids i hi)
    · exact absurd hcode (validate_payload_structure_no_E001 pl _ i hi)
    · rw [List.mem_singleton] at hi
      subst hi
      exact ⟨rfl, rfl⟩
  · intro issues w hw
    simp [isValidIssues, hw]

/-- Closed instance of `c6_unknown_type_warning`. -/
theorem c6_unknown_type_warning_witness :
    ((payloadStep noResolve noResolve noRegex 0
        (.dict (.cons "PayloadType" (.str "com.example.unknown") .nil))
        { uuids := [], idents := [], ptypes := [], versions := [] }).2.countP
      fun i => i.code == "E001") = 1 :=
  (c6_unknown_type_warning noResolve noResolve noRegex 0
      (.cons "PayloadType" (.str "com.example.unknown") .nil)
      { uuids := [], idents := [], ptypes := [], versions := [] }
      (by decide) (by decide)).1

/-! ## Claim C8: schema-version recording -/

/-- Literal-building helpers for concrete documents. -/
def pdictOf : List (String × PValue) → PDict
  | [] => .nil
  | (k, v) :: t => .cons k v (pdictOf t)

def plistOf : List PValue → PList
  | [] => .nil
  | v :: t => .cons v (plistOf t)

/-- Index and document for the closed C8 instances: the payload type resolves
only through the `-macOS` suffix fallback. -/
def c8Index : List (String × IndexInfo) :=
  [("com.example.app-macOS", { path := "p.plist", version := some (.int 3) })]

def c8ExactIndex : List (String × IndexInfo) :=
  [("com.example.app", { path := "p.plist", version := some (.int 3) })]

def c8Files : List (String × PValue) :=
  [("p.plist", .dict (pdictOf [("pfm_title", .str "Example")]))]

def c8Payload : PDict :=
  pdictOf [("PayloadType", .str "com.example.app"), ("PayloadVersion", .int 1),
    ("PayloadIdentifier", .str "com.example.profile.payload"),
    ("PayloadUUID", .str "f81d4fae-7dec-11d0-a765-00a0c91e6bf7")]

def c8Doc : PDict :=
  pdictOf [("PayloadType", .str "Configuration"), ("PayloadVersion", .int 1),
    ("PayloadIdentifier", .str "com.example.profile"),
    ("PayloadUUID", .str "f81d4fae-7dec-11d0-a765-00a0c91e6bf6"),
    ("PayloadContent", .arr (plistOf [.dict c8Payload]))]

/-- C8 (counterexample to the claim as stated): the payload type
`com.example.app` resolves to a (truthy) manifest via the `-macOS` suffix
fallback, yet the result's version map stays empty, because
`get_manifest_version` performs only an exact index lookup. -/
theorem c8_counterexample :
    optTruthy (loaderGetm c8Index c8Files (.str "com.example.app")) = true ∧
    loaderGetv c8Index (.str "com.example.app") = none ∧
    (validate (loaderGetm c8Index c8Files) (loaderGetv c8Index) noRegex
        c8Doc).manifest_versions = [] :=
  ⟨rfl, rfl, rfl⟩

/-- C8 (amended): the loop iteration records a schema version for an
element's type only when the requested identifier itself is an exact key of
the index carrying a truthy version; when the exact lookup fails — in
particular whenever the manifest was found through the case-insensitive or
platform-suffix fallback — no version is recorded even though validation ran
against the resolved manifest. -/
theorem c8_version_recording (index : List (String × IndexInfo))
    (files : List (String × PValue)) (rm : String → String → Option Bool)
    (n : Nat) (pl : PDict) (st : LoopState) (s : String)
    (hptype : pl.getD "PayloadType" (.str "") = .str s) :
    (lookupIdx index s = none →
      (payloadStep (loaderGetm index files) (loaderGetv index) rm n (.dict pl) st).1.versions =
        st.versions) ∧
    (∀ info vv, lookupIdx index s = some info → info.version = some vv →
      pyTruthy vv = true →
      optTruthy (loaderGetm index files (.str s)) = true →
      (payloadStep (loaderGetm index files) (loaderGetv index) rm n (.dict pl) st).1.versions =
        setVersion st.versions (.str s) vv) := by
  constructor
  · intro hnone
    have hv : loaderGetv index (.str s) = none := by
      simp [loaderGetv, loader_get_manifest_version, hnone]
    simp only [payloadStep, elemSchemaStep, hptype]
    cases hg : loaderGetm index files (.str s) with
    | none => simp [hg]
    | some m =>
      simp only [hg]
      split
      · simp [hv]
      · simp
  · intro info vv hinfo hver htr hres
    have hv : loaderGetv index (.str s) = some vv := by
      simp [loaderGetv, loader_get_manifest_version, hinfo, hver]
    simp only [payloadStep, elemSchemaStep, hptype]
    cases hg : loaderGetm index files (.str s) with
    | none =>
      rw [hg] at hres
      simp [optTruthy] at hres
    | some m =>
      rw [hg] at hres
      simp only [optTruthy] at hres
      simp [hg, hres, hv, htr]

/-- Closed instance of `c8_version_recording`: with an exact index entry the
version is recorded. -/
theorem c8_version_recording_witness :
    (payloadStep (loaderGetm c8ExactIndex c8Files) (loaderGetv c8ExactIndex) noRegex 0
        (.dict c8Payload)
        { uuids := [], idents := [], ptypes := [], versions := [] }).1.versions =
      setVersion [] (.str "com.example.app") (.int 3) :=
  (c8_version_recording c8ExactIndex c8Files noRegex 0 c8Payload
      { uuids := [], idents := [], ptypes := [], versions := [] }
      "com.example.app" rfl).2
    { path := "p.plist", version := some (.int 3) } (.int 3) rfl rfl (by decide) (by decide)

/-! ## Claim C9: issue ordering -/

/-- The per-element issue lists of the payload loop, in element order. -/
def stepIssueLists (getm getv : PValue → Option PValue) (rm : String → String → Option Bool) :
    Nat → PList → LoopState → List (List ValidationIssue)
  | _, .nil, _ => []
  | i, .cons p t, st =>
    (payloadStep getm getv rm i p st).2 ::
      stepIssueLists getm getv rm (i + 1) t (payloadStep getm getv rm i p st).1

/-- The loop state after all elements. -/
def finalLoopState (getm getv : PValue → Option PValue) (rm : String → String → Option Bool) :
    Nat → PList → LoopState → LoopState
  | _, .nil, st => st
  | i, .cons p t, st => finalLoopState getm getv rm (i + 1) t (payloadStep getm getv rm i p st).1

theorem runPayloads_decomp (getm getv : PValue → Option PValue)
    (rm : String → String → Option Bool) (i : Nat) (l : PList) (st : LoopState) :
    (runPayloads getm getv rm i l st).2 = (stepIssueLists getm getv rm i l st).flatten ∧
    (runPayloads getm getv rm i l st).1 = finalLoopState getm getv rm i l st := by
  cases l with
  | nil => exact ⟨rfl, rfl⟩
  | cons p t =>
    obtain ⟨h2, h1⟩ := runPayloads_decomp getm getv rm (i + 1) t
      (payloadStep getm getv rm i p st).1
    constructor
    · simp only [runPayloads, stepIssueLists, List.flatten_cons]
      rw [h2]
    · simp only [runPayloads, finalLoopState]
      rw [h1]
termination_by sizeOf l

/-- C9: for a document whose payload container parses as a sequence, the
issue list of `validate` is exactly the document-structural issues, then the
concatenation of the per-element issue lists in element order, then the
duplicate-identifier issues; each element's list is its own structural issues
(UUID collision and envelope checks) followed by its schema-driven issues;
and every trailing duplicate-identifier issue is info-level with code I003. -/
theorem c9_issue_ordering (getm getv : PValue → Option PValue)
    (rm : String → String → Option Bool) (profile : PDict) (pcs : PList)
    (_hdoc : docOk profile = true) (_hm : manifestsOk getm)
    (hpc : profile.getD "PayloadContent" (.arr .nil) = .arr pcs) :
    (validate getm getv rm profile).issues =
      validate_profile_structure profile ++
      (stepIssueLists getm getv rm 0 pcs (loopStateInit profile)).flatten ++
      dupIdIssues (finalLoopState getm getv rm 0 pcs (loopStateInit profile)).idents ∧
    (∀ (n : Nat) (pl : PDict) (st : LoopState),
      (payloadStep getm getv rm n (.dict pl) st).2 =
        ((elemUuidStep pl ("PayloadContent[" ++ toString n ++ "]") st.uuids).1 ++
          validate_payload_structure pl ("PayloadContent[" ++ toString n ++ "]")) ++
        (elemSchemaStep getm getv rm pl ("PayloadContent[" ++ toString n ++ "]")
          st.versions).1) ∧
    (∀ i ∈ dupIdIssues (finalLoopState getm getv rm 0 pcs (loopStateInit profile)).idents,
      i.severity = Severity.info ∧ i.code = "I003") := by
  refine ⟨?_, ?_, ?_⟩
  · obtain ⟨h2, h1⟩ := runPayloads_decomp getm getv rm 0 pcs (loopStateInit profile)
    simp only [validate, hpc]
    rw [h2, h1]
  · intro n pl st
    simp [payloadStep, List.append_assoc]
  · intro i hi
    obtain ⟨hc, hs, _⟩ := dupIdIssues_shape _ i hi
    exact ⟨hs, hc⟩

/-- Closed instance of `c9_issue_ordering` at a small document. -/
theorem c9_issue_ordering_witness :
    (validate noResolve noResolve noRegex
        (pdictOf [("PayloadContent", .arr (plistOf [.int 5]))])).issues =
      validate_profile_structure (pdictOf [("PayloadContent", .arr (plistOf [.int 5]))]) ++
      (stepIssueLists noResolve noResolve noRegex 0 (plistOf [.int 5])
        (loopStateInit (pdictOf [("PayloadContent", .arr (plistOf [.int 5]))]))).flatten ++
      dupIdIssues (finalLoopState noResolve noResolve noRegex 0 (plistOf [.int 5])
        (loopStateInit (pdictOf [("PayloadContent", .arr (plistOf [.int 5]))]))).idents :=
  (c9_issue_ordering noResolve noResolve noRegex
      (pdictOf [("PayloadContent", .arr (plistOf [.int 5]))]) (plistOf [.int 5])
      (by decide) noResolve_manifestsOk rfl).1
